import Mathlib

/-!
Verification development for the per-stream RTP statistics engine
(receiver and sender sides) of the livekit-server SFU extract.

The Go sources embedded here are
  pkg/sfu/buffer/rtpstats_receiver.go
  pkg/sfu/buffer/rtpstats_sender.go
Machine integers (uint64, uint32, uint16, uint8, int64, int32) are
modelled as Nat / Int with explicit reductions modulo the relevant
power of two at the places where the Go code converts, compares or can
wrap.  Wall-clock reads (time.Now, time.Since) are passed as explicit
parameters.  Conversions performed by external dependencies that are
out of scope of the specification (NTP timestamp to wall clock, the
RTT helper of mediatransportutil) are carried as explicit inputs.

Floating point: the Go code uses float64 only to scale durations by the
constant factors 0.1 / 0.9 / 0.5 and by min(1, dt/10s), followed by a
truncating conversion back to time.Duration.  These are modelled by
exact integer arithmetic with truncating division (Int.tdiv); for the
magnitudes involved (durations far below 2^52 ns) the float64
computation differs from the exact one by at most one nanosecond, and
no branch condition of the embedded functions depends on these scaled
values within a single call.
-/

namespace RTPStats

/-- 2^64, the modulus of Go uint64 arithmetic. -/
def U64 : Nat := 2 ^ 64

/-- 2^32, the modulus of Go uint32 arithmetic. -/
def U32 : Nat := 2 ^ 32

/-- 2^63, the boundary between nonnegative and negative int64 values. -/
def HALF64 : Nat := 2 ^ 63

/-- Wrapping uint64 subtraction: the value of `a - b` in Go when `a`, `b`
are uint64 values (inputs are first reduced mod 2^64). -/
def sub64 (a b : Nat) : Nat := (a + U64 - b % U64) % U64

/-- Wrapping uint32 subtraction, as `sub64` but 32 bits wide. -/
def sub32 (a b : Nat) : Nat := (a + U32 - b % U32) % U32

/-- Reinterpretation of a uint64 bit pattern as an int64, i.e. the Go
conversion `int64(x)` for `x : uint64`. -/
def toInt64 (n : Nat) : Int :=
  if n % U64 < HALF64 then ((n % U64 : Nat) : Int) else ((n % U64 : Nat) : Int) - (U64 : Int)

/-- The Go conversion `uint64(x)` of an int64 value: two's complement
reinterpretation, i.e. the representative of x modulo 2^64. -/
def natOfInt64 (x : Int) : Nat := (x % (U64 : Int)).toNat

/-- The Go conversion `uint32(x)` of an int64 value. -/
def natOfInt32 (x : Int) : Nat := (x % (U32 : Int)).toNat

-- ---------------------------------------------------------------------
-- Bitmap history (receiver).
-- ---------------------------------------------------------------------

/-- Modelled from the spec: the fixed-capacity bitmap over extended
sequence numbers provided by the protocol utils dependency
(`protoutils.Bitmap[uint64]`, not under src/).  Spec section 4.2: a
power-of-two capacity bit array indexed modulo its size with
operations set / isSet / clearRange; windowing is the caller's
responsibility. -/
structure Bitmap where
  size : Nat := 8192
  bits : Nat → Bool := fun _ => false

/-- Bitmap test, index taken modulo the size. -/
def Bitmap.isSet (bm : Bitmap) (i : Nat) : Bool := bm.bits (i % bm.size)

/-- Bitmap set, index taken modulo the size. -/
def Bitmap.set (bm : Bitmap) (i : Nat) : Bitmap :=
  { bm with bits := fun j => if j = i % bm.size then true else bm.bits j }

/-- Clear a single bit, index taken modulo the size. -/
def Bitmap.clearOne (bm : Bitmap) (i : Nat) : Bitmap :=
  { bm with bits := fun j => if j = i % bm.size then false else bm.bits j }

/-- Clear the inclusive range [lo, hi]; no-op when hi < lo. -/
def Bitmap.clearRange (bm : Bitmap) (lo hi : Nat) : Bitmap :=
  if hi < lo then bm
  else (List.range (hi + 1 - lo)).foldl (fun b k => b.clearOne (lo + k)) bm

-- ---------------------------------------------------------------------
-- WrapAround extender.
-- ---------------------------------------------------------------------

/-- The result record of a WrapAround update
(`utils.WrapAroundUpdateResult[uint64]`). -/
structure WrapResult where
  isUnhandled : Bool := false
  preExtendedHighest : Nat := 0
  extendedVal : Nat := 0
deriving DecidableEq

/-- Modelled from the spec: the state of the `utils.WrapAround` extender
(pkg/sfu/utils, code of this repository that is not under src/).  Spec
section 4.1: it converts narrow unsigned values of the given bit width
into monotonic 64-bit extended values. -/
structure WrapState where
  width : Nat := 16
  started : Bool := false
  extStart : Nat := 0
  extHighest : Nat := 0

/-- The narrow value of the current extended highest. -/
def WrapState.getHighest (w : WrapState) : Nat := w.extHighest % 2 ^ w.width

/-- The extended highest value. -/
def WrapState.getExtendedHighest (w : WrapState) : Nat := w.extHighest

/-- The extended start value. -/
def WrapState.getExtendedStart (w : WrapState) : Nat := w.extStart

/-- Modelled from the spec: WrapAround update (section 4.1).  On the
first value, start and highest are initialised to it.  Otherwise the
signed wrap-aware delta within the narrow width is applied to the
extended highest; a result below zero is ambiguous and reported as
unhandled. -/
def WrapState.update (w : WrapState) (v : Nat) : WrapState × WrapResult :=
  if w.started = false then
    ({ w with started := true, extStart := v % 2 ^ w.width, extHighest := v % 2 ^ w.width },
     { isUnhandled := false, preExtendedHighest := v % 2 ^ w.width, extendedVal := v % 2 ^ w.width })
  else
    let n := 2 ^ w.width
    let du := (v % n + n - w.extHighest % n) % n
    let d : Int := if du < n / 2 then (du : Int) else (du : Int) - (n : Int)
    let ext : Int := (w.extHighest : Int) + d
    if ext < 0 then
      (w, { isUnhandled := true, preExtendedHighest := w.extHighest, extendedVal := 0 })
    else
      ({ w with extHighest := max w.extHighest ext.toNat },
       { isUnhandled := false, preExtendedHighest := w.extHighest, extendedVal := ext.toNat })

/-- Modelled from the spec: WrapAround rollover (section 4.1) — like
update but forcing the given number of extra cycles before extension; a
negative count requests a plain update. -/
def WrapState.rollover (w : WrapState) (v : Nat) (roc : Int) : WrapState × WrapResult :=
  if roc < 0 then w.update v
  else
    if w.started = false then w.update v
    else
      let n := 2 ^ w.width
      let du := (v % n + n - w.extHighest % n) % n
      let d : Int := if du < n / 2 then (du : Int) else (du : Int) - (n : Int)
      let ext : Int := (w.extHighest : Int) + d + roc * (n : Int)
      if ext < 0 then
        (w, { isUnhandled := true, preExtendedHighest := w.extHighest, extendedVal := 0 })
      else
        ({ w with extHighest := max w.extHighest ext.toNat },
         { isUnhandled := false, preExtendedHighest := w.extHighest, extendedVal := ext.toNat })

/-- Modelled from the spec: WrapAround undoUpdate (section 4.1) —
reverts the last update, restoring the previous extended highest. -/
def WrapState.undoUpdate (w : WrapState) (res : WrapResult) : WrapState :=
  { w with extHighest := res.preExtendedHighest }

-- ---------------------------------------------------------------------
-- Shared data records.
-- ---------------------------------------------------------------------

/-- RTCPSenderReportData.  `NTPTimestamp` is the raw 64-bit NTP value;
`NTPTimeNs` is its wall-clock conversion `NTPTimestamp.Time()` in
nanoseconds, performed by the out-of-scope mediatransportutil
dependency and therefore carried alongside the raw value.  `At` and
`AtAdjusted` are wall-clock nanoseconds. -/
structure SRData where
  NTPTimestamp : Nat := 0
  NTPTimeNs : Int := 0
  RTPTimestamp : Nat := 0
  RTPTimestampExt : Nat := 0
  At : Int := 0
  AtAdjusted : Int := 0
  Packets : Nat := 0
  Octets : Nat := 0
deriving DecidableEq

/-- RTPFlowState returned by the receiver Update path. -/
structure RTPFlowState where
  IsNotHandled : Bool := false
  HasLoss : Bool := false
  LossStartInclusive : Nat := 0
  LossEndExclusive : Nat := 0
  IsDuplicate : Bool := false
  IsOutOfOrder : Bool := false
  ExtSequenceNumber : Nat := 0
  ExtTimestamp : Nat := 0
deriving DecidableEq

/-- Modelled from the spec: the generic snapshot record of rtpStatsBase
(rtpstats_base.go, code of this repository that is not under src/).
Spec section 4.10: a snapshot is anchored at (startTime, extStartSN)
with per-counter baselines; the fields kept here are the ones the
embedded operations read (extStartSN and the packetsLost baseline for
reception reports, maxRtt for the receiver-report ingestion loop). -/
structure Snapshot where
  startTime : Int := 0
  extStartSN : Nat := 0
  packetsLost : Nat := 0
  maxRtt : Nat := 0
deriving DecidableEq

/-- Modelled from the spec: the sequence-number large jump threshold
`cSequenceNumberLargeJumpThreshold` of rtpstats_base.go (not under
src/), called LARGE_JUMP_THRESHOLD in the spec; its value only gates
logging counters. -/
def cSequenceNumberLargeJumpThreshold : Int := 100

/-- Modelled from the spec: `cNumSequenceNumbers` of rtpstats_base.go
(not under src/), the size of the 16-bit sequence number space (NUM_SN
in the spec). -/
def cNumSequenceNumbers : Nat := 65536

/-- cHistorySize from rtpstats_receiver.go. -/
def cHistorySize : Nat := 8192

/-- cSnInfoSize from rtpstats_sender.go. -/
def cSnInfoSize : Nat := 4096

-- ---------------------------------------------------------------------
-- Receiver state.
-- ---------------------------------------------------------------------

/-- The state of an RTPStatsReceiver together with the rtpStatsBase
fields it embeds.  Counter fields are Go uint64 values; `packetsLost`
is the only counter the code also decrements, so all its writes are
reduced modulo 2^64.  The jitter estimator and the gap histogram live
in rtpStatsBase (not under src/) and are modelled from the spec with
exact rational arithmetic. -/
structure ReceiverState where
  clockRate : Nat := 90000
  endTimeSet : Bool := false
  initialized : Bool := false
  startTime : Int := 0
  firstTime : Int := 0
  highestTime : Int := 0
  seqSN : WrapState := { width := 16 }
  tsState : WrapState := { width := 32 }
  history : Bitmap := {}
  bytes : Nat := 0
  headerBytes : Nat := 0
  bytesDuplicate : Nat := 0
  headerBytesDuplicate : Nat := 0
  bytesPadding : Nat := 0
  headerBytesPadding : Nat := 0
  packetsDuplicate : Nat := 0
  packetsPadding : Nat := 0
  packetsLost : Nat := 0
  packetsOutOfOrder : Nat := 0
  frames : Nat := 0
  jitter : Rat := 0
  maxJitter : Rat := 0
  transitPrev : Rat := 0
  gapHistogram : List Int := []
  snapshots : List Snapshot := []
  srFirst : Option SRData := none
  srNewest : Option SRData := none
  propagationDelay : Int := 0
  longTermDeltaPropagationDelay : Int := 0
  propagationDelayDeltaHighCount : Nat := 0
  propagationDelayDeltaHighStartTime : Option Int := none
  propagationDelaySpike : Int := 0
  clockSkewCount : Nat := 0
  outOfOrderSenderReportCount : Nat := 0
  largeJumpCount : Nat := 0
  largeJumpNegativeCount : Nat := 0
  timeReversedCount : Nat := 0
  rtt : Nat := 0
  maxRtt : Nat := 0

/-- isInRange from rtpstats_receiver.go: `diff := int64(ehsn - esn);
diff >= 0 && diff < cHistorySize`. -/
def isInRange (esn ehsn : Nat) : Bool :=
  decide (0 ≤ toInt64 (sub64 ehsn esn) ∧ toInt64 (sub64 ehsn esn) < (cHistorySize : Int))

/-- Modelled from the spec: the RFC 3550 jitter estimator of
rtpStatsBase (not under src/), spec section 4.6: D is the difference
between the arrival time scaled to RTP units and the extended RTP
timestamp; J accumulates (|D - Dprev| - J)/16. -/
def updateJitterR (s : ReceiverState) (extTS : Nat) (packetTime : Int) : ReceiverState :=
  let d : Rat := (packetTime : Rat) * (s.clockRate : Rat) / (10 ^ 9 : Rat) - (extTS : Rat)
  let j : Rat := s.jitter + (|d - s.transitPrev| - s.jitter) / 16
  { s with transitPrev := d, jitter := j, maxJitter := max s.maxJitter j }

/-- Modelled from the spec: the gap histogram of rtpStatsBase (not
under src/) records the distribution of in-order sequence gaps; the
embedding keeps the list of recorded gaps. -/
def updateGapHistogramR (s : ReceiverState) (gap : Int) : ReceiverState :=
  { s with gapHistogram := s.gapHistogram ++ [gap] }

/-- Modelled from the spec: initSnapshot of rtpStatsBase (not under
src/), spec section 4.10: seeds the snapshot at the given time and
anchor sequence number with current counter baselines. -/
def initSnapshotR (s : ReceiverState) (now : Int) (anchor : Nat) : Snapshot :=
  { startTime := now, extStartSN := anchor, packetsLost := s.packetsLost, maxRtt := 0 }

/-- The byte / padding / frame / jitter accounting tail of
RTPStatsReceiver.Update (rtpstats_receiver.go lines 359-374), applied
to non-duplicate packets. -/
def receiverCountersTail (s : ReceiverState) (resTSExt : Nat) (packetTime : Int)
    (marker : Bool) (hdrSize payloadSize pktSize : Nat) (isDup : Bool) : ReceiverState :=
  if isDup = true then s
  else if payloadSize = 0 then
    { s with packetsPadding := s.packetsPadding + 1,
             bytesPadding := s.bytesPadding + pktSize,
             headerBytesPadding := s.headerBytesPadding + hdrSize }
  else
    let sF :=
      { s with bytes := s.bytes + pktSize,
               headerBytes := s.headerBytes + hdrSize,
               frames := if marker then s.frames + 1 else s.frames }
    updateJitterR sF resTSExt packetTime

/-- The classification tail of RTPStatsReceiver.Update
(rtpstats_receiver.go lines 283-375): everything after the sequence
number and timestamp extension results are in hand.  The duplicate
flag is computed up front from the history bit — the state updates
between the branch entry and the history test in the source do not
touch the history or the extension results, so the test reads the same
values. -/
def receiverClassify (s : ReceiverState) (resSN resTS : WrapResult) (timestamp : Nat)
    (packetTime : Int) (marker : Bool) (hdrSize payloadSize paddingSize : Nat) :
    ReceiverState × RTPFlowState :=
  let gapSN : Int := toInt64 (sub64 resSN.extendedVal resSN.preExtendedHighest)
  let pktSize : Nat := hdrSize + payloadSize + paddingSize
  let isDup : Bool :=
    if gapSN ≤ 0 then
      if isInRange resSN.extendedVal resSN.preExtendedHighest then
        s.history.isSet resSN.extendedVal
      else false
    else false
  let s1 :=
    if gapSN ≤ 0 then
      -- duplicate OR out-of-order
      let sA := if gapSN ≠ 0 then { s with packetsOutOfOrder := s.packetsOutOfOrder + 1 } else s
      let sB :=
        if isInRange resSN.extendedVal resSN.preExtendedHighest then
          if s.history.isSet resSN.extendedVal then
            { sA with bytesDuplicate := sA.bytesDuplicate + pktSize,
                      headerBytesDuplicate := sA.headerBytesDuplicate + hdrSize,
                      packetsDuplicate := sA.packetsDuplicate + 1 }
          else
            { sA with packetsLost := sub64 sA.packetsLost 1,
                      history := sA.history.set resSN.extendedVal }
        else sA
      if isDup = false ∧ cSequenceNumberLargeJumpThreshold ≤ -gapSN then
        { sB with largeJumpNegativeCount := sB.largeJumpNegativeCount + 1 }
      else sB
    else
      -- in-order
      let sA :=
        if cSequenceNumberLargeJumpThreshold ≤ gapSN then
          { s with largeJumpCount := s.largeJumpCount + 1 }
        else s
      let sB :=
        if resTS.extendedVal < resTS.preExtendedHighest then
          { sA with timeReversedCount := sA.timeReversedCount + 1 }
        else sA
      let sC := updateGapHistogramR sB gapSN
      let sD :=
        { sC with
          history := (sC.history.clearRange (resSN.preExtendedHighest + 1)
                        (sub64 resSN.extendedVal 1)).set resSN.extendedVal,
          packetsLost := (sC.packetsLost + natOfInt64 (gapSN - 1)) % U64 }
      if timestamp ≠ resTS.preExtendedHighest % U32 then
        { sD with highestTime := packetTime }
      else sD
  let flow : RTPFlowState :=
    if gapSN ≤ 0 then
      { IsDuplicate := isDup, IsOutOfOrder := true,
        ExtSequenceNumber := resSN.extendedVal, ExtTimestamp := resTS.extendedVal }
    else if 1 < gapSN then
      { HasLoss := true,
        LossStartInclusive := (resSN.preExtendedHighest + 1) % U64,
        LossEndExclusive := resSN.extendedVal,
        ExtSequenceNumber := resSN.extendedVal, ExtTimestamp := resTS.extendedVal }
    else
      { ExtSequenceNumber := resSN.extendedVal, ExtTimestamp := resTS.extendedVal }
  (receiverCountersTail s1 resTS.extendedVal packetTime marker hdrSize payloadSize pktSize isDup,
   flow)

lemma receiverCountersTail_packetsOutOfOrder (s : ReceiverState) (a : Nat) (b : Int) (c : Bool)
    (d e f : Nat) (g : Bool) :
    (receiverCountersTail s a b c d e f g).packetsOutOfOrder = s.packetsOutOfOrder := by
  simp only [receiverCountersTail, updateJitterR]
  split_ifs <;> rfl

lemma receiverCountersTail_packetsDuplicate (s : ReceiverState) (a : Nat) (b : Int) (c : Bool)
    (d e f : Nat) (g : Bool) :
    (receiverCountersTail s a b c d e f g).packetsDuplicate = s.packetsDuplicate := by
  simp only [receiverCountersTail, updateJitterR]
  split_ifs <;> rfl

lemma receiverCountersTail_bytesDuplicate (s : ReceiverState) (a : Nat) (b : Int) (c : Bool)
    (d e f : Nat) (g : Bool) :
    (receiverCountersTail s a b c d e f g).bytesDuplicate = s.bytesDuplicate := by
  simp only [receiverCountersTail, updateJitterR]
  split_ifs <;> rfl

lemma receiverCountersTail_headerBytesDuplicate (s : ReceiverState) (a : Nat) (b : Int) (c : Bool)
    (d e f : Nat) (g : Bool) :
    (receiverCountersTail s a b c d e f g).headerBytesDuplicate = s.headerBytesDuplicate := by
  simp only [receiverCountersTail, updateJitterR]
  split_ifs <;> rfl

lemma receiverCountersTail_packetsLost (s : ReceiverState) (a : Nat) (b : Int) (c : Bool)
    (d e f : Nat) (g : Bool) :
    (receiverCountersTail s a b c d e f g).packetsLost = s.packetsLost := by
  simp only [receiverCountersTail, updateJitterR]
  split_ifs <;> rfl

lemma receiverCountersTail_history (s : ReceiverState) (a : Nat) (b : Int) (c : Bool)
    (d e f : Nat) (g : Bool) :
    (receiverCountersTail s a b c d e f g).history = s.history := by
  simp only [receiverCountersTail, updateJitterR]
  split_ifs <;> rfl

/-- tsRolloverThreshold of rtpstats_receiver.go:
`(1 << 31) * 1e9 / clockRate` in int64 arithmetic. -/
def tsRolloverThreshold (clockRate : Nat) : Int :=
  Int.tdiv ((2 ^ 31 : Int) * 10 ^ 9) (clockRate : Int)

/-- getTSRolloverCount of rtpstats_receiver.go (lines 140-155). -/
def getTSRolloverCount (s : ReceiverState) (diffNano : Int) (ts : Nat) : Int :=
  if diffNano < tsRolloverThreshold s.clockRate then -1
  else
    let excess : Int :=
      Int.tdiv ((diffNano - tsRolloverThreshold s.clockRate * 2) * (s.clockRate : Int)) (10 ^ 9)
    let roc : Int := Int.tdiv excess (2 ^ 32 : Int)
    let roc : Int := if roc < 0 then 0 else roc
    if ts < s.tsState.getHighest then roc + 1 else roc

/-- RTPStatsReceiver.Update (rtpstats_receiver.go lines 157-376).
`now` is the wall clock read by time.Now at stream start. -/
def receiverUpdate (s : ReceiverState) (packetTime : Int) (sequenceNumber timestamp : Nat)
    (marker : Bool) (hdrSize payloadSize paddingSize : Nat) (now : Int) :
    ReceiverState × RTPFlowState :=
  if s.endTimeSet = true then (s, { IsNotHandled := true })
  else if s.initialized = false then
    if payloadSize = 0 then (s, { IsNotHandled := true })
    else
      let s0 :=
        { s with initialized := true, startTime := now,
                 firstTime := packetTime, highestTime := packetTime }
      let uSN := s0.seqSN.update sequenceNumber
      let uTS := s0.tsState.update timestamp
      let s1 :=
        { s0 with seqSN := uSN.1, tsState := uTS.1,
                  snapshots := s0.snapshots.map
                    (fun _ => initSnapshotR s0 s0.startTime uSN.1.getExtendedStart) }
      receiverClassify s1 uSN.2 uTS.2 timestamp packetTime marker hdrSize payloadSize paddingSize
  else
    let uSN := s.seqSN.update sequenceNumber
    if uSN.2.isUnhandled = true then (s, { IsNotHandled := true })
    else
      let s1 := { s with seqSN := uSN.1 }
      let timeSinceHighest : Int := packetTime - s1.highestTime
      let tsRolloverCount := getTSRolloverCount s1 timeSinceHighest timestamp
      let uTS := s1.tsState.rollover timestamp tsRolloverCount
      if uTS.2.isUnhandled = true then (s1, { IsNotHandled := true })
      else
        let s2 := { s1 with tsState := uTS.1 }
        let gapSN : Int := toInt64 (sub64 uSN.2.extendedVal uSN.2.preExtendedHighest)
        let gapTS : Int := toInt64 (sub64 uTS.2.extendedVal uTS.2.preExtendedHighest)
        if gapTS < 0 ∧ 0 < gapSN then
          ({ s2 with seqSN := s2.seqSN.undoUpdate uSN.2 }, { IsNotHandled := true })
        else
          if gapSN < 0 ∧ 0 < gapTS ∧ 0 < payloadSize ∧ 0 ≤ tsRolloverCount then
            let uSN2 := s2.seqSN.rollover sequenceNumber 1
            if uSN2.2.isUnhandled = true then
              ({ s2 with seqSN := uSN2.1 }, { IsNotHandled := true })
            else
              receiverClassify { s2 with seqSN := uSN2.1 } uSN2.2 uTS.2 timestamp packetTime
                marker hdrSize payloadSize paddingSize
          else
            receiverClassify s2 uSN.2 uTS.2 timestamp packetTime
              marker hdrSize payloadSize paddingSize

-- ---------------------------------------------------------------------
-- Receiver: sender report ingestion.
-- ---------------------------------------------------------------------

/-- The timestamp-cycle computation of getExtendedSenderReport
(rtpstats_receiver.go lines 379-415): the 2^32-cycle base to add to
the 32-bit RTP timestamp of the inbound report, derived from the
newest recorded sender report.  The wall-time difference between the
two NTP timestamps is read from the carried NTPTimeNs fields (external
conversion). -/
def srTsCycles (s : ReceiverState) (srData : SRData) : Nat :=
  match s.srNewest with
  | none => 0
  | some prev =>
    let timeSinceLastReport : Int := srData.NTPTimeNs - prev.NTPTimeNs
    let expectedRTPTimestampExt : Nat :=
      (prev.RTPTimestampExt +
        natOfInt64 (Int.tdiv (timeSinceLastReport * (s.clockRate : Int)) (10 ^ 9))) % U64
    let slack : Nat := 60 * s.clockRate
    let lbound : Nat := sub64 expectedRTPTimestampExt slack
    let ubound : Nat := (expectedRTPTimestampExt + slack) % U64
    if sub32 srData.RTPTimestamp lbound < 2 ^ 31 ∧
       sub32 ubound srData.RTPTimestamp < 2 ^ 31 then
      let lbTSCycles := lbound / U32 * U32
      let ubTSCycles := ubound / U32 * U32
      if lbTSCycles = ubTSCycles then lbTSCycles
      else if srData.RTPTimestamp < 2 ^ 31 then ubTSCycles else lbTSCycles
    else
      -- clock-rate mismatch fallback
      let c0 := prev.RTPTimestampExt / U32 * U32
      let c1 :=
        if sub32 srData.RTPTimestamp prev.RTPTimestamp < 2 ^ 31 ∧
           srData.RTPTimestamp < prev.RTPTimestamp then
          (c0 + U32) % U64
        else c0
      if U32 ≤ c1 then
        if 2 ^ 31 ≤ sub32 srData.RTPTimestamp prev.RTPTimestamp ∧
           prev.RTPTimestamp < srData.RTPTimestamp then
          c1 - U32
        else c1
      else c1

/-- getExtendedSenderReport of rtpstats_receiver.go (lines 378-420):
extends the 32-bit RTP timestamp of an inbound sender report to 64 bits
against the newest recorded sender report. -/
def getExtendedSenderReport (s : ReceiverState) (srData : SRData) : SRData :=
  { srData with RTPTimestampExt := (srData.RTPTimestamp + srTsCycles s srData) % U64 }

/-- Every branch of the cycle computation produces a multiple of
2^32. -/
lemma srTsCycles_dvd (s : ReceiverState) (srData : SRData) : U32 ∣ srTsCycles s srData := by
  cases hsr : s.srNewest with
  | none => simp [srTsCycles, hsr]
  | some prev =>
    simp only [srTsCycles, hsr]
    split_ifs <;> simp only [U32, U64] <;> omega

/-- checkOutOfOrderSenderReport of rtpstats_receiver.go (condition
only; the counter increment is omitted from the predicate). -/
def checkOutOfOrderSenderReport (s : ReceiverState) (srData : SRData) : Bool :=
  match s.srNewest with
  | none => false
  | some prev => decide (srData.RTPTimestampExt < prev.RTPTimestampExt)

/-- The resetDelta closure of
updatePropagationDelayAndRecordSenderReport (rtpstats_receiver.go
lines 528-532). -/
def resetDelta (s : ReceiverState) : ReceiverState :=
  { s with propagationDelayDeltaHighCount := 0,
           propagationDelayDeltaHighStartTime := none,
           propagationDelaySpike := 0 }

/-- The initPropagationDelay closure of
updatePropagationDelayAndRecordSenderReport (rtpstats_receiver.go
lines 533-539). -/
def initPropagationDelay (s : ReceiverState) (pd : Int) : ReceiverState :=
  resetDelta { s with propagationDelay := pd, longTermDeltaPropagationDelay := 0 }

/-- The propagation-delay delta handling of
updatePropagationDelayAndRecordSenderReport (rtpstats_receiver.go
lines 548-578): the spike / path-change branch when the delta exceeds
10 ms, the asymmetric EWMA otherwise.  Durations are nanoseconds:
10 ms = 10^7, 10 s = 10^10.  The float64 factor scalings 0.9 / 0.1 /
0.5 are modelled by exact truncating integer division (see the file
header). -/
def propagationDelayDeltaStage (s : ReceiverState) (propagationDelay : Int) (now : Int) :
    ReceiverState :=
  let deltaPropagationDelay : Int := propagationDelay - s.propagationDelay
  if 10 ^ 7 < deltaPropagationDelay then
    if s.longTermDeltaPropagationDelay ≠ 0 ∧
       s.longTermDeltaPropagationDelay * 2 < deltaPropagationDelay then
      -- sharp increase in propagation delay; the start time is kept
      -- when already set and started at the current wall clock when
      -- zero (Option.getD models the IsZero check of time.Time)
      let count := s.propagationDelayDeltaHighCount + 1
      let startT : Int := s.propagationDelayDeltaHighStartTime.getD now
      let spike : Int :=
        if s.propagationDelaySpike = 0 then propagationDelay
        else s.propagationDelaySpike +
          Int.tdiv (propagationDelay - s.propagationDelaySpike) 2
      let sH :=
        { s with propagationDelayDeltaHighCount := count,
                 propagationDelayDeltaHighStartTime := some startT,
                 propagationDelaySpike := spike }
      if 2 ≤ count ∧ 10 ^ 10 ≤ now - startT then
        -- re-initialize propagation delay from the spike estimate
        initPropagationDelay sH sH.propagationDelaySpike
      else sH
    else resetDelta s
  else
    -- falls fast (factor 0.9), rises slowly (factor 0.1)
    let newProp : Int :=
      if s.propagationDelay < propagationDelay then
        s.propagationDelay + Int.tdiv (propagationDelay - s.propagationDelay) 10
      else
        s.propagationDelay + Int.tdiv (9 * (propagationDelay - s.propagationDelay)) 10
    { resetDelta s with propagationDelay := newProp }

/-- The long-term delta adaptation and clamp of
updatePropagationDelayAndRecordSenderReport (rtpstats_receiver.go
lines 580-593).  50 ms = 5 * 10^7 ns; the min(1, dt / 10 s) adaptation
factor is modelled by exact truncating integer division. -/
def longTermAdaptationStage (s2 : ReceiverState) (deltaPropagationDelay sinceLastReport : Int) :
    ReceiverState :=
  let s3 :=
    if deltaPropagationDelay < 5 * 10 ^ 7 then
      if s2.longTermDeltaPropagationDelay = 0 then
        { s2 with longTermDeltaPropagationDelay := deltaPropagationDelay }
      else
        let lt : Int :=
          if 10 ^ 10 ≤ sinceLastReport then
            s2.longTermDeltaPropagationDelay +
              (deltaPropagationDelay - s2.longTermDeltaPropagationDelay)
          else
            s2.longTermDeltaPropagationDelay +
              Int.tdiv (sinceLastReport *
                (deltaPropagationDelay - s2.longTermDeltaPropagationDelay)) (10 ^ 10)
        { s2 with longTermDeltaPropagationDelay := lt }
    else s2
  if s3.longTermDeltaPropagationDelay < 0 then
    { s3 with longTermDeltaPropagationDelay := 0 }
  else s3

/-- updatePropagationDelayAndRecordSenderReport of rtpstats_receiver.go
(lines 514-598).  `now` is the wall clock read by time.Now / time.Since
inside the function. -/
def updatePropagationDelayAndRecordSenderReport (s : ReceiverState) (srData : SRData)
    (now : Int) : ReceiverState :=
  let ntpTime : Int := srData.NTPTimeNs
  let propagationDelay : Int := srData.At - ntpTime
  let s1 :=
    match s.srFirst with
    | none =>
      -- first sender report: seed propagation delay, reset delta tracking
      initPropagationDelay { s with srFirst := some srData } propagationDelay
    | some _ =>
      let deltaPropagationDelay : Int := propagationDelay - s.propagationDelay
      let sinceLastReport : Int :=
        srData.NTPTimeNs -
          (match s.srNewest with | some prev => prev.NTPTimeNs | none => 0)
      longTermAdaptationStage (propagationDelayDeltaStage s propagationDelay now)
        deltaPropagationDelay sinceLastReport
  let recorded : SRData := { srData with AtAdjusted := ntpTime + s1.propagationDelay }
  { s1 with srNewest := some recorded }

/-- The asymmetric EWMA in the words of the spec and of claim C4:
propagationDelay += alpha * (pd - propagationDelay) with alpha = 0.1
when pd rises above the current estimate and alpha = 0.9 otherwise. -/
def claimedAsymmetricEwma (prop pd : Int) : Int :=
  if prop < pd then prop + Int.tdiv (pd - prop) 10
  else prop + Int.tdiv (9 * (pd - prop)) 10

lemma propagationDelayDeltaStage_ewma (s : ReceiverState) (pd now : Int)
    (h : pd - s.propagationDelay ≤ 10 ^ 7) :
    propagationDelayDeltaStage s pd now =
      { resetDelta s with propagationDelay := claimedAsymmetricEwma s.propagationDelay pd } := by
  simp only [propagationDelayDeltaStage, claimedAsymmetricEwma]
  rw [if_neg (by omega)]

lemma propagationDelayDeltaStage_reset_only (s : ReceiverState) (pd now : Int)
    (h1 : 10 ^ 7 < pd - s.propagationDelay)
    (h2 : ¬(s.longTermDeltaPropagationDelay ≠ 0 ∧
      s.longTermDeltaPropagationDelay * 2 < pd - s.propagationDelay)) :
    propagationDelayDeltaStage s pd now = resetDelta s := by
  simp only [propagationDelayDeltaStage]
  rw [if_pos h1, if_neg h2]

lemma propagationDelayDeltaStage_spike (s : ReceiverState) (pd now : Int)
    (h1 : 10 ^ 7 < pd - s.propagationDelay)
    (hB1 : s.longTermDeltaPropagationDelay ≠ 0)
    (hB2 : s.longTermDeltaPropagationDelay * 2 < pd - s.propagationDelay)
    (count : Nat) (startT spike : Int)
    (hcount : count = s.propagationDelayDeltaHighCount + 1)
    (hstart : startT = s.propagationDelayDeltaHighStartTime.getD now)
    (hspike : spike = (if s.propagationDelaySpike = 0 then pd
      else s.propagationDelaySpike + Int.tdiv (pd - s.propagationDelaySpike) 2)) :
    propagationDelayDeltaStage s pd now =
      (if 2 ≤ count ∧ 10 ^ 10 ≤ now - startT then
        initPropagationDelay
          { s with propagationDelayDeltaHighCount := count,
                   propagationDelayDeltaHighStartTime := some startT,
                   propagationDelaySpike := spike } spike
       else
        { s with propagationDelayDeltaHighCount := count,
                 propagationDelayDeltaHighStartTime := some startT,
                 propagationDelaySpike := spike }) := by
  subst hcount hstart hspike
  simp only [propagationDelayDeltaStage]
  rw [if_pos h1, if_pos ⟨hB1, hB2⟩]

lemma longTermAdaptationStage_propagationDelay (s : ReceiverState) (d n : Int) :
    (longTermAdaptationStage s d n).propagationDelay = s.propagationDelay := by
  simp only [longTermAdaptationStage]
  split_ifs <;> rfl

lemma longTermAdaptationStage_highCount (s : ReceiverState) (d n : Int) :
    (longTermAdaptationStage s d n).propagationDelayDeltaHighCount =
      s.propagationDelayDeltaHighCount := by
  simp only [longTermAdaptationStage]
  split_ifs <;> rfl

lemma longTermAdaptationStage_highStartTime (s : ReceiverState) (d n : Int) :
    (longTermAdaptationStage s d n).propagationDelayDeltaHighStartTime =
      s.propagationDelayDeltaHighStartTime := by
  simp only [longTermAdaptationStage]
  split_ifs <;> rfl

lemma longTermAdaptationStage_spike (s : ReceiverState) (d n : Int) :
    (longTermAdaptationStage s d n).propagationDelaySpike = s.propagationDelaySpike := by
  simp only [longTermAdaptationStage]
  split_ifs <;> rfl

lemma longTermAdaptationStage_longTerm_of_zero (s : ReceiverState) (d n : Int)
    (h0 : s.longTermDeltaPropagationDelay = 0) (hpos : 0 < d) :
    (longTermAdaptationStage s d n).longTermDeltaPropagationDelay =
      if d < 5 * 10 ^ 7 then d else 0 := by
  simp only [longTermAdaptationStage, h0]
  split_ifs <;> simp_all <;> omega

-- ---------------------------------------------------------------------
-- Receiver: outgoing reception report.
-- ---------------------------------------------------------------------

/-- The outbound rtcp.ReceptionReport fields. -/
structure ReceptionReport where
  SSRC : Nat := 0
  FractionLost : Nat := 0
  TotalLost : Nat := 0
  LastSequenceNumber : Nat := 0
  Jitter : Nat := 0
  LastSenderReport : Nat := 0
  Delay : Nat := 0
deriving DecidableEq

/-- Models the Go expression
`uint8(float32(packetsLost) / float32(packetsExpected) * 256.0)` of
GetRtcpReceptionReport (rtpstats_receiver.go lines 684-685).  For
0 <= packetsLost <= packetsExpected <= 2^16 both operands are exactly
representable in float32 and the rounded quotient times 256 never
crosses an integer boundary (the quotient would have to lie within
2^-25 relative distance below a multiple of 1/256, which requires
packetsLost * 256 * packetsExpected > 2^25 more precision than the
inputs admit), so the truncated product equals 256 * l / e in integer
arithmetic.  At packetsLost = packetsExpected the product is exactly
256.0, which does not fit uint8: the Go conversion is then
implementation-dependent and on the gc amd64/arm64 backends takes the
low 8 bits, giving 0; the model adopts that semantics via mod 256. -/
def fracLostFromRatio (packetsLost packetsExpected : Nat) : Nat :=
  256 * packetsLost / packetsExpected % 256

/-- GetRtcpReceptionReport of rtpstats_receiver.go (lines 657-714).
The snapshot pair produced by getAndResetSnapshot (rtpStatsBase, not
under src/) is passed in as `thenSnap` / `nowSnap`; `now` is the wall
clock used for the DLSR computation. -/
def getRtcpReceptionReport (s : ReceiverState) (ssrc proxyFracLost : Nat)
    (thenSnap nowSnap : Snapshot) (now : Int) : Option ReceptionReport :=
  let packetsExpected : Nat := sub64 nowSnap.extStartSN thenSnap.extStartSN
  if cNumSequenceNumbers < packetsExpected then none
  else if packetsExpected = 0 then none
  else
    let packetsLost0 : Nat := sub64 nowSnap.packetsLost thenSnap.packetsLost % U32
    let packetsLost1 : Nat := if 2 ^ 31 ≤ packetsLost0 then 0 else packetsLost0
    let fracLost0 : Nat := fracLostFromRatio packetsLost1 packetsExpected
    let fracLost : Nat := if fracLost0 < proxyFracLost then proxyFracLost else fracLost0
    let totalLost : Nat :=
      if 0xffffff < s.packetsLost % U64 then 0xffffff else s.packetsLost % U64
    let lastSR : Nat :=
      match s.srNewest with
      | some sr => sr.NTPTimestamp / 2 ^ 16 % U32
      | none => 0
    let dlsr : Nat :=
      match s.srNewest with
      | some sr =>
        if sr.At ≠ 0 then natOfInt32 (Int.tdiv (Int.tdiv (now - sr.At) 1000 * 65536) (10 ^ 6))
        else 0
      | none => 0
    some { SSRC := ssrc % U32,
           FractionLost := fracLost,
           TotalLost := totalLost % U32,
           LastSequenceNumber := nowSnap.extStartSN % U32,
           Jitter := s.jitter.floor.toNat % U32,
           LastSenderReport := lastSR,
           Delay := dlsr }

-- ---------------------------------------------------------------------
-- Sender state.
-- ---------------------------------------------------------------------

/-- snInfo of rtpstats_sender.go; the flags bitfield is modelled as
three booleans.  pktSize is a uint16 and hdrSize a uint8 (both
truncated at the write site). -/
structure SnInfo where
  pktSize : Nat := 0
  hdrSize : Nat := 0
  marker : Bool := false
  padding : Bool := false
  outOfOrder : Bool := false
deriving DecidableEq

/-- intervalStats of rtpstats_sender.go. -/
structure IntervalStats where
  packets : Nat := 0
  bytes : Nat := 0
  headerBytes : Nat := 0
  packetsPadding : Nat := 0
  bytesPadding : Nat := 0
  headerBytesPadding : Nat := 0
  packetsLost : Nat := 0
  packetsOutOfOrder : Nat := 0
  frames : Nat := 0
  packetsNotFound : Nat := 0
deriving DecidableEq

/-- intervalStats.aggregate of rtpstats_sender.go. -/
def IntervalStats.aggregate (is other : IntervalStats) : IntervalStats :=
  { packets := is.packets + other.packets,
    bytes := is.bytes + other.bytes,
    headerBytes := is.headerBytes + other.headerBytes,
    packetsPadding := is.packetsPadding + other.packetsPadding,
    bytesPadding := is.bytesPadding + other.bytesPadding,
    headerBytesPadding := is.headerBytesPadding + other.headerBytesPadding,
    packetsLost := is.packetsLost + other.packetsLost,
    packetsOutOfOrder := is.packetsOutOfOrder + other.packetsOutOfOrder,
    frames := is.frames + other.frames,
    packetsNotFound := is.packetsNotFound + other.packetsNotFound }

/-- senderSnapshot of rtpstats_sender.go. -/
structure SenderSnapshot where
  isValid : Bool := false
  startTime : Int := 0
  extStartSN : Nat := 0
  bytes : Nat := 0
  headerBytes : Nat := 0
  packetsPadding : Nat := 0
  bytesPadding : Nat := 0
  headerBytesPadding : Nat := 0
  packetsDuplicate : Nat := 0
  bytesDuplicate : Nat := 0
  headerBytesDuplicate : Nat := 0
  packetsOutOfOrder : Nat := 0
  packetsLostFeed : Nat := 0
  packetsLost : Nat := 0
  frames : Nat := 0
  nacks : Nat := 0
  plis : Nat := 0
  firs : Nat := 0
  maxRtt : Nat := 0
  maxJitterFeed : Rat := 0
  maxJitter : Rat := 0
  extLastRRSN : Nat := 0
  intervalStats : IntervalStats := {}
deriving DecidableEq

/-- The inbound rtcp.ReceptionReport fields consumed by the sender
(LastSequenceNumber and TotalLost are uint32 wire values, TotalLost
carrying 24 bits). -/
structure RRPacket where
  LastSequenceNumber : Nat := 0
  TotalLost : Nat := 0
  Jitter : Nat := 0
deriving DecidableEq

/-- The state of an RTPStatsSender together with the rtpStatsBase
fields it embeds.  `snInfos` is the per-SN metadata ring of
cSnInfoSize slots, modelled as a total function read and written at
indices below cSnInfoSize. -/
structure SenderState where
  clockRate : Nat := 90000
  endTimeSet : Bool := false
  initialized : Bool := false
  startTime : Int := 0
  firstTime : Int := 0
  highestTime : Int := 0
  extStartSN : Nat := 0
  extHighestSN : Nat := 0
  extHighestSNFromRR : Nat := 0
  lastRRTimeSet : Bool := false
  lastRRTime : Int := 0
  lastRR : RRPacket := {}
  extStartTS : Nat := 0
  extHighestTS : Nat := 0
  packetsLostFromRR : Nat := 0
  jitterFromRR : Rat := 0
  maxJitterFromRR : Rat := 0
  snInfos : Nat → SnInfo := fun _ => {}
  snapshots : List Snapshot := []
  senderSnapshots : List SenderSnapshot := []
  bytes : Nat := 0
  headerBytes : Nat := 0
  bytesDuplicate : Nat := 0
  headerBytesDuplicate : Nat := 0
  bytesPadding : Nat := 0
  headerBytesPadding : Nat := 0
  packetsDuplicate : Nat := 0
  packetsPadding : Nat := 0
  packetsLost : Nat := 0
  packetsOutOfOrder : Nat := 0
  frames : Nat := 0
  jitter : Rat := 0
  maxJitter : Rat := 0
  transitPrev : Rat := 0
  gapHistogram : List Int := []
  rtt : Nat := 0
  maxRtt : Nat := 0
  nacks : Nat := 0
  plis : Nat := 0
  firs : Nat := 0
  srFirst : Option SRData := none
  srNewest : Option SRData := none
  largeJumpNegativeCount : Nat := 0
  largeJumpCount : Nat := 0
  timeReversedCount : Nat := 0
  clockSkewCount : Nat := 0
  metadataCacheOverflowCount : Nat := 0

/-- getSnInfoOutOfOrderSlot of rtpstats_sender.go (lines 893-901):
none models the -1 slot for offsets outside [0, cSnInfoSize). -/
def getSnInfoOutOfOrderSlot (_s : SenderState) (esn ehsn : Nat) : Option Nat :=
  let offset : Int := toInt64 (sub64 ehsn esn)
  if (cSnInfoSize : Int) ≤ offset ∨ offset < 0 then none
  else some (esn % cSnInfoSize)

/-- setSnInfo of rtpstats_sender.go (lines 903-927).  The call sites
pass `uint16(pktSize)`, `uint8(hdrSize)` and `uint16(payloadSize)`;
those truncations are applied here. -/
def setSnInfo (s : SenderState) (esn ehsn pktSize hdrSize payloadSize : Nat)
    (marker isOutOfOrder : Bool) : SenderState :=
  let info : SnInfo :=
    { pktSize := pktSize % 2 ^ 16,
      hdrSize := hdrSize % 2 ^ 8,
      marker := marker,
      padding := payloadSize % 2 ^ 16 = 0,
      outOfOrder := isOutOfOrder }
  let write : Nat → SenderState := fun slot =>
    { s with snInfos := fun j => if j = slot then info else s.snInfos j }
  if toInt64 (sub64 esn ehsn) < 0 then
    match getSnInfoOutOfOrderSlot s esn ehsn with
    | none => s
    | some slot => write slot
  else write (esn % cSnInfoSize)

/-- clearSnInfos of rtpstats_sender.go (lines 929-940). -/
def clearSnInfos (s : SenderState) (extStartInclusive extEndExclusive : Nat) : SenderState :=
  (List.range (extEndExclusive - extStartInclusive)).foldl
    (fun st k =>
      { st with snInfos := fun j =>
          if j = (extStartInclusive + k) % cSnInfoSize then {} else st.snInfos j })
    s

/-- isSnInfoLost of rtpstats_sender.go (lines 942-949). -/
def isSnInfoLost (s : SenderState) (esn ehsn : Nat) : Bool :=
  match getSnInfoOutOfOrderSlot s esn ehsn with
  | none => false
  | some slot => decide ((s.snInfos slot).pktSize = 0)

/-- processESN, the slot classifier inside getIntervalStats of
rtpstats_sender.go (lines 956-985). -/
def processESN (s : SenderState) (esn ehsn : Nat) (is : IntervalStats) : IntervalStats :=
  match getSnInfoOutOfOrderSlot s esn ehsn with
  | none => { is with packetsNotFound := is.packetsNotFound + 1 }
  | some slot =>
    let info := s.snInfos slot
    let is1 :=
      if info.pktSize = 0 then
        { is with packetsLost := is.packetsLost + 1 }
      else if info.padding = true then
        { is with packetsPadding := is.packetsPadding + 1,
                  bytesPadding := is.bytesPadding + info.pktSize,
                  headerBytesPadding := is.headerBytesPadding + info.hdrSize }
      else
        let isP :=
          { is with packets := is.packets + 1,
                    bytes := is.bytes + info.pktSize,
                    headerBytes := is.headerBytes + info.hdrSize }
        if info.outOfOrder = true then
          { isP with packetsOutOfOrder := isP.packetsOutOfOrder + 1 }
        else isP
    if info.marker = true then { is1 with frames := is1.frames + 1 } else is1

/-- getIntervalStats of rtpstats_sender.go (lines 951-991).  The
uint64 loop `for esn := start; esn != end; esn++` wraps: it runs
`(end - start) mod 2^64` times and visits the 64-bit values
`(start + k) mod 2^64`, which also covers a start numerically above
the end (e.g. extLastRRSN + 1 = 2^64 when a stream starts at extended
sequence number 0 and the first snapshot carries
extLastRRSN = 2^64 - 1). -/
def getIntervalStats (s : SenderState) (extStartInclusive extEndExclusive ehsn : Nat) :
    IntervalStats :=
  (List.range (sub64 extEndExclusive extStartInclusive)).foldl
    (fun is k => processESN s ((extStartInclusive + k) % U64) ehsn is) {}

-- ---------------------------------------------------------------------
-- Sender: update path.
-- ---------------------------------------------------------------------

/-- initSenderSnapshot of rtpstats_sender.go (lines 854-861). -/
def initSenderSnapshot (startTime : Int) (extStartSN : Nat) : SenderSnapshot :=
  { isValid := true,
    startTime := startTime,
    extStartSN := extStartSN,
    extLastRRSN := sub64 extStartSN 1 }

/-- Modelled from the spec: initSnapshot of rtpStatsBase (not under
src/) for the sender side, seeding at the given anchor with current
baselines. -/
def initSnapshotS (s : SenderState) (now : Int) (anchor : Nat) : Snapshot :=
  { startTime := now, extStartSN := anchor, packetsLost := s.packetsLost, maxRtt := 0 }

/-- Modelled from the spec: the RFC 3550 jitter estimator of
rtpStatsBase (not under src/) on the sender side; returns the updated
state together with the new jitter value (the Go method returns the
jitter for the snapshot feed loop). -/
def updateJitterS (s : SenderState) (extTS : Nat) (packetTime : Int) : SenderState × Rat :=
  let d : Rat := (packetTime : Rat) * (s.clockRate : Rat) / (10 ^ 9 : Rat) - (extTS : Rat)
  let j : Rat := s.jitter + (|d - s.transitPrev| - s.jitter) / 16
  ({ s with transitPrev := d, jitter := j, maxJitter := max s.maxJitter j }, j)

/-- Modelled from the spec: the sender-side gap histogram update of
rtpStatsBase (not under src/). -/
def updateGapHistogramS (s : SenderState) (gap : Int) : SenderState :=
  { s with gapHistogram := s.gapHistogram ++ [gap] }

/-- The start-sequence-number adjustment block of RTPStatsSender.Update
(rtpstats_sender.go lines 308-336), taken when
`extSequenceNumber < r.extStartSN`: packetsLost grows by the distance,
snapshots anchored at the old start are re-anchored, and sender
snapshots additionally shift extLastRRSN when it sat just before the
old start. -/
def senderAdjustStart (s : SenderState) (extSequenceNumber : Nat) : SenderState :=
  let oldStart := s.extStartSN
  { s with
    packetsLost := (s.packetsLost + sub64 oldStart extSequenceNumber) % U64,
    snapshots := s.snapshots.map
      (fun sn => if sn.extStartSN = oldStart then { sn with extStartSN := extSequenceNumber }
                 else sn),
    senderSnapshots := s.senderSnapshots.map
      (fun sn =>
        if sn.extStartSN = oldStart then
          { sn with extStartSN := extSequenceNumber,
                    extLastRRSN :=
                      if sn.extLastRRSN = sub64 oldStart 1 then sub64 extSequenceNumber 1
                      else sn.extLastRRSN }
        else sn),
    extStartSN := extSequenceNumber }

/-- The timestamp / counter tail of RTPStatsSender.Update
(rtpstats_sender.go lines 394-437), shared by the in-order and
out-of-order branches. -/
def senderUpdateTail (s : SenderState) (extTimestamp : Nat) (packetTime : Int) (marker : Bool)
    (hdrSize payloadSize pktSize : Nat) (isDuplicate : Bool) : SenderState :=
  let s1 :=
    if extTimestamp < s.extStartTS then { s with extStartTS := extTimestamp } else s
  -- the start-timestamp adjustment above does not modify extHighestTS,
  -- so the highest-timestamp test reads the incoming state value
  let s2 :=
    if s.extHighestTS < extTimestamp then
      let sT := if 0 < payloadSize then { s1 with highestTime := packetTime } else s1
      { sT with extHighestTS := extTimestamp }
    else s1
  if isDuplicate = true then s2
  else if payloadSize = 0 then
    { s2 with packetsPadding := s2.packetsPadding + 1,
              bytesPadding := s2.bytesPadding + pktSize,
              headerBytesPadding := s2.headerBytesPadding + hdrSize }
  else
    let s3 :=
      { s2 with bytes := s2.bytes + pktSize,
                headerBytes := s2.headerBytes + hdrSize,
                frames := if marker then s2.frames + 1 else s2.frames }
    let uj := updateJitterS s3 extTimestamp packetTime
    let s4 := uj.1
    let fed := s4.senderSnapshots.map
      (fun sn => if sn.maxJitterFeed < uj.2 then { sn with maxJitterFeed := uj.2 } else sn)
    { s4 with senderSnapshots := fed }

/-- RTPStatsSender.Update (rtpstats_sender.go lines 236-437).  The
inputs are already extended; `now` is the wall clock read by time.Now
at stream start. -/
def senderUpdate (s : SenderState) (packetTime : Int) (extSequenceNumber extTimestamp : Nat)
    (marker : Bool) (hdrSize payloadSize paddingSize : Nat) (now : Int) : SenderState :=
  if s.endTimeSet = true then s
  else if s.initialized = false ∧ payloadSize = 0 then s
  else
    let s0 :=
      if s.initialized = false then
        { s with initialized := true, startTime := now,
                 firstTime := packetTime, highestTime := packetTime,
                 extStartSN := extSequenceNumber,
                 extHighestSN := sub64 extSequenceNumber 1,
                 extStartTS := extTimestamp,
                 extHighestTS := extTimestamp,
                 snapshots := s.snapshots.map (fun _ => initSnapshotS s now extSequenceNumber),
                 senderSnapshots := s.senderSnapshots.map
                   (fun _ => initSenderSnapshot now extSequenceNumber) }
      else s
    let pktSize : Nat := hdrSize + payloadSize + paddingSize
    let gapSN : Int := toInt64 (sub64 extSequenceNumber s0.extHighestSN)
    if gapSN ≤ 0 then
      -- duplicate OR out-of-order
      if payloadSize = 0 ∧ extSequenceNumber < s0.extStartSN then s0
      else
        -- the duplicate test reads the metadata ring and the highest
        -- sequence number, neither of which is touched by the
        -- start-adjustment or the out-of-order counter, so it is
        -- computed up front from s0
        let isDuplicate : Bool := !(isSnInfoLost s0 extSequenceNumber s0.extHighestSN)
        let s1 :=
          if extSequenceNumber < s0.extStartSN then senderAdjustStart s0 extSequenceNumber
          else s0
        let s2 :=
          if gapSN ≠ 0 then { s1 with packetsOutOfOrder := s1.packetsOutOfOrder + 1 } else s1
        let s3 :=
          if isDuplicate = true then
            { s2 with bytesDuplicate := s2.bytesDuplicate + pktSize,
                      headerBytesDuplicate := s2.headerBytesDuplicate + hdrSize,
                      packetsDuplicate := s2.packetsDuplicate + 1 }
          else
            setSnInfo { s2 with packetsLost := sub64 s2.packetsLost 1 }
              extSequenceNumber s2.extHighestSN pktSize hdrSize payloadSize marker true
        let s4 :=
          if isDuplicate = false ∧ cSequenceNumberLargeJumpThreshold ≤ -gapSN then
            { s3 with largeJumpNegativeCount := s3.largeJumpNegativeCount + 1 }
          else s3
        senderUpdateTail s4 extTimestamp packetTime marker hdrSize payloadSize pktSize isDuplicate
    else
      -- in-order
      let s1 :=
        if cSequenceNumberLargeJumpThreshold ≤ gapSN then
          { s0 with largeJumpCount := s0.largeJumpCount + 1 }
        else s0
      let s2 :=
        if extTimestamp < s1.extHighestTS then
          { s1 with timeReversedCount := s1.timeReversedCount + 1 }
        else s1
      let s3 := updateGapHistogramS s2 gapSN
      let s4 := clearSnInfos s3 (s3.extHighestSN + 1) extSequenceNumber
      let s5 := { s4 with packetsLost := (s4.packetsLost + natOfInt64 (gapSN - 1)) % U64 }
      let s6 := setSnInfo s5 extSequenceNumber s5.extHighestSN pktSize hdrSize payloadSize
        marker false
      let s7 := { s6 with extHighestSN := extSequenceNumber }
      senderUpdateTail s7 extTimestamp packetTime marker hdrSize payloadSize pktSize false

lemma setSnInfo_packetsLost (s : SenderState) (a b c d e : Nat) (m o : Bool) :
    (setSnInfo s a b c d e m o).packetsLost = s.packetsLost := by
  simp only [setSnInfo]
  split_ifs <;> first | rfl | (rcases h : getSnInfoOutOfOrderSlot s a b with _ | slot <;>
    simp [h])

lemma setSnInfo_extStartSN (s : SenderState) (a b c d e : Nat) (m o : Bool) :
    (setSnInfo s a b c d e m o).extStartSN = s.extStartSN := by
  simp only [setSnInfo]
  split_ifs <;> first | rfl | (rcases h : getSnInfoOutOfOrderSlot s a b with _ | slot <;>
    simp [h])

lemma setSnInfo_extHighestSN (s : SenderState) (a b c d e : Nat) (m o : Bool) :
    (setSnInfo s a b c d e m o).extHighestSN = s.extHighestSN := by
  simp only [setSnInfo]
  split_ifs <;> first | rfl | (rcases h : getSnInfoOutOfOrderSlot s a b with _ | slot <;>
    simp [h])

lemma setSnInfo_snapshots (s : SenderState) (a b c d e : Nat) (m o : Bool) :
    (setSnInfo s a b c d e m o).snapshots = s.snapshots := by
  simp only [setSnInfo]
  split_ifs <;> first | rfl | (rcases h : getSnInfoOutOfOrderSlot s a b with _ | slot <;>
    simp [h])

lemma setSnInfo_senderSnapshots (s : SenderState) (a b c d e : Nat) (m o : Bool) :
    (setSnInfo s a b c d e m o).senderSnapshots = s.senderSnapshots := by
  simp only [setSnInfo]
  split_ifs <;> first | rfl | (rcases h : getSnInfoOutOfOrderSlot s a b with _ | slot <;>
    simp [h])

lemma setSnInfo_packetsDuplicate (s : SenderState) (a b c d e : Nat) (m o : Bool) :
    (setSnInfo s a b c d e m o).packetsDuplicate = s.packetsDuplicate := by
  simp only [setSnInfo]
  split_ifs <;> first | rfl | (rcases h : getSnInfoOutOfOrderSlot s a b with _ | slot <;>
    simp [h])

lemma setSnInfo_bytesDuplicate (s : SenderState) (a b c d e : Nat) (m o : Bool) :
    (setSnInfo s a b c d e m o).bytesDuplicate = s.bytesDuplicate := by
  simp only [setSnInfo]
  split_ifs <;> first | rfl | (rcases h : getSnInfoOutOfOrderSlot s a b with _ | slot <;>
    simp [h])

lemma setSnInfo_headerBytesDuplicate (s : SenderState) (a b c d e : Nat) (m o : Bool) :
    (setSnInfo s a b c d e m o).headerBytesDuplicate = s.headerBytesDuplicate := by
  simp only [setSnInfo]
  split_ifs <;> first | rfl | (rcases h : getSnInfoOutOfOrderSlot s a b with _ | slot <;>
    simp [h])

lemma senderUpdateTail_packetsLost (s : SenderState) (a : Nat) (b : Int) (c : Bool)
    (d e f : Nat) (g : Bool) :
    (senderUpdateTail s a b c d e f g).packetsLost = s.packetsLost := by
  simp only [senderUpdateTail, updateJitterS]
  split_ifs <;> rfl

lemma senderUpdateTail_extStartSN (s : SenderState) (a : Nat) (b : Int) (c : Bool)
    (d e f : Nat) (g : Bool) :
    (senderUpdateTail s a b c d e f g).extStartSN = s.extStartSN := by
  simp only [senderUpdateTail, updateJitterS]
  split_ifs <;> rfl

lemma senderUpdateTail_snapshots (s : SenderState) (a : Nat) (b : Int) (c : Bool)
    (d e f : Nat) (g : Bool) :
    (senderUpdateTail s a b c d e f g).snapshots = s.snapshots := by
  simp only [senderUpdateTail, updateJitterS]
  split_ifs <;> rfl

lemma senderUpdateTail_packetsDuplicate (s : SenderState) (a : Nat) (b : Int) (c : Bool)
    (d e f : Nat) (g : Bool) :
    (senderUpdateTail s a b c d e f g).packetsDuplicate = s.packetsDuplicate := by
  simp only [senderUpdateTail, updateJitterS]
  split_ifs <;> rfl

lemma senderUpdateTail_bytesDuplicate (s : SenderState) (a : Nat) (b : Int) (c : Bool)
    (d e f : Nat) (g : Bool) :
    (senderUpdateTail s a b c d e f g).bytesDuplicate = s.bytesDuplicate := by
  simp only [senderUpdateTail, updateJitterS]
  split_ifs <;> rfl

lemma senderUpdateTail_headerBytesDuplicate (s : SenderState) (a : Nat) (b : Int) (c : Bool)
    (d e f : Nat) (g : Bool) :
    (senderUpdateTail s a b c d e f g).headerBytesDuplicate = s.headerBytesDuplicate := by
  simp only [senderUpdateTail, updateJitterS]
  split_ifs <;> rfl

lemma senderUpdateTail_senderSnapshots_anchor (s : SenderState) (a : Nat) (b : Int) (c : Bool)
    (d e f : Nat) (g : Bool) (i : Nat) :
    ((senderUpdateTail s a b c d e f g).senderSnapshots[i]?).map
      (fun sn => (sn.extStartSN, sn.extLastRRSN)) =
    (s.senderSnapshots[i]?).map (fun sn => (sn.extStartSN, sn.extLastRRSN)) := by
  simp only [senderUpdateTail, updateJitterS]
  split_ifs <;> (try rfl) <;>
    (simp only [List.getElem?_map, Option.map_map]
     cases s.senderSnapshots[i]? <;> simp <;> split_ifs <;> exact ⟨rfl, rfl⟩)

-- ---------------------------------------------------------------------
-- Sender: receiver report ingestion.
-- ---------------------------------------------------------------------

/-- The extension of rr.LastSequenceNumber against the stored
extHighestSNFromRR, rtpstats_sender.go lines 454-459: stay in the
current 2^32 cycle, adding one cycle when the narrow delta is a
forward wrap (only once a previous receiver report exists). -/
def extHighestSNFromRRNext (s : SenderState) (rr : RRPacket) : Nat :=
  let base : Nat := (s.extHighestSNFromRR / U32 * U32 + rr.LastSequenceNumber) % U64
  if s.lastRRTimeSet = true ∧
     sub32 rr.LastSequenceNumber s.lastRR.LastSequenceNumber < 2 ^ 31 ∧
     rr.LastSequenceNumber < s.lastRR.LastSequenceNumber then
    (base + U32) % U64
  else base

/-- The per-sender-snapshot step of UpdateFromReceiverReport
(rtpstats_sender.go lines 516-567): max-RTT / max-jitter maintenance,
then either skip (interval backwards or larger than 2^15) or aggregate
the interval stats and advance extLastRRSN.  The ring is read from
`ring` (the state after extHighestSNFromRR was stored). -/
def senderSnapshotRRStep (ring : SenderState) (extReceivedRRSN : Nat) (rtt : Nat)
    (isRttChanged : Bool) (jitterFromRR : Rat) (sn : SenderSnapshot) : SenderSnapshot :=
  let sn1 :=
    if isRttChanged = true ∧ sn.maxRtt < rtt then { sn with maxRtt := rtt } else sn
  let sn2 :=
    if sn1.maxJitter < jitterFromRR then { sn1 with maxJitter := jitterFromRR } else sn1
  if toInt64 (sub64 extReceivedRRSN sn2.extLastRRSN) < 0 ∨
     2 ^ 15 < sub64 extReceivedRRSN sn2.extLastRRSN then
    sn2
  else
    let is := getIntervalStats ring (sn2.extLastRRSN + 1) ((extReceivedRRSN + 1) % U64)
      ring.extHighestSN
    { sn2 with intervalStats := sn2.intervalStats.aggregate is,
               extLastRRSN := extReceivedRRSN }

/-- RTPStatsSender.UpdateFromReceiverReport (rtpstats_sender.go lines
446-572).  `rttResult` is the outcome of the out-of-scope
mediatransportutil.GetRttMs call (none = error); `now` is the wall
clock stored into lastRRTime.  Returns the new state together with the
(rtt, isRttChanged) pair the Go method returns. -/
def updateFromReceiverReport (s : SenderState) (rr : RRPacket) (rttResult : Option Nat)
    (now : Int) : SenderState × Nat × Bool :=
  if s.initialized = false ∨ s.endTimeSet = true then (s, 0, false)
  else
    let ehRR := extHighestSNFromRRNext s rr
    if (ehRR + s.extStartSN / 2 ^ 16 * 2 ^ 16) % U64 < s.extStartSN then (s, 0, false)
    else if s.lastRRTimeSet = true ∧ ehRR < s.extHighestSNFromRR then (s, 0, false)
    else
      let s1 := { s with extHighestSNFromRR := ehRR }
      let rttPair : Nat × Bool :=
        match s1.srNewest, rttResult with
        | some _, some v => (v, decide (v ≠ s1.rtt))
        | some _, none => (0, false)
        | none, _ => (0, false)
      let rtt := rttPair.1
      let isRttChanged := rttPair.2
      let plBase : Nat := (s1.packetsLostFromRR / U32 * U32 + rr.TotalLost) % U64
      let plRR : Nat :=
        if sub32 rr.TotalLost s1.lastRR.TotalLost < 2 ^ 31 ∧
           rr.TotalLost < s1.lastRR.TotalLost then
          (plBase + U32) % U64
        else plBase
      let s2 := { s1 with packetsLostFromRR := plRR }
      let s3 :=
        if isRttChanged = true then
          { s2 with rtt := rtt, maxRtt := if s2.maxRtt < rtt then rtt else s2.maxRtt }
        else s2
      let s4 :=
        { s3 with jitterFromRR := (rr.Jitter : Rat),
                  maxJitterFromRR :=
                    if s3.maxJitterFromRR < (rr.Jitter : Rat) then (rr.Jitter : Rat)
                    else s3.maxJitterFromRR }
      let snaps := s4.snapshots.map
        (fun sn =>
          if isRttChanged = true ∧ sn.maxRtt < rtt then { sn with maxRtt := rtt } else sn)
      let s5 := { s4 with snapshots := snaps }
      let extReceivedRRSN : Nat := (s5.extHighestSNFromRR + s5.extStartSN / 2 ^ 16 * 2 ^ 16) % U64
      let sSnaps := s5.senderSnapshots.map
        (senderSnapshotRRStep s5 extReceivedRRSN rtt isRttChanged ((rr.Jitter : Rat)))
      let s6 := { s5 with senderSnapshots := sSnaps }
      let s7 := { s6 with lastRRTimeSet := true, lastRRTime := now, lastRR := rr }
      (s7, rtt, isRttChanged)

-- ---------------------------------------------------------------------
-- Sender: outgoing sender report.
-- ---------------------------------------------------------------------

/-- The outbound rtcp.SenderReport fields. -/
structure SenderReportPkt where
  SSRC : Nat := 0
  NTPTime : Nat := 0
  RTPTime : Nat := 0
  PacketCount : Nat := 0
  OctetCount : Nat := 0
deriving DecidableEq

/-- Modelled from the spec: getTotalPacketsPrimary of rtpStatsBase (not
under src/), spec section 8: primary packets are the observed sequence
span minus losses and padding. -/
def getTotalPacketsPrimary (s : SenderState) : Nat :=
  sub64 (sub64 (sub64 ((s.extHighestSN + 1) % U64) s.extStartSN) (s.packetsLost % U64))
    s.packetsPadding

/-- RTPStatsSender.GetRtcpSenderReport (rtpstats_sender.go lines
609-696).  `now` is the wall clock (time.Since anchor), and `nowNTP` /
`nowNTPTimeNs` are the out-of-scope ToNtpTime conversion of `now` used
in generated mode.  Returns the new state and the report, none when
the function exits without recording (uninitialized or out-of-order). -/
def getRtcpSenderReport (s : SenderState) (ssrc : Nat) (publisherSRData : SRData)
    (tsOffset : Nat) (passThrough : Bool) (now : Int) (nowNTP : Nat) (nowNTPTimeNs : Int) :
    SenderState × Option SenderReportPkt :=
  if s.initialized = false then (s, none)
  else
    let timeSincePublisherSRAdjusted : Int := now - publisherSRData.AtAdjusted
    let nowRTPExt : Nat :=
      if passThrough then sub64 publisherSRData.RTPTimestampExt tsOffset
      else
        (sub64 publisherSRData.RTPTimestampExt tsOffset +
          natOfInt64 (Int.tdiv (timeSincePublisherSRAdjusted * (s.clockRate : Int)) (10 ^ 9)))
          % U64
    let nowNTPUsed : Nat := if passThrough then publisherSRData.NTPTimestamp else nowNTP
    let nowNTPTimeNsUsed : Int := if passThrough then publisherSRData.NTPTimeNs else nowNTPTimeNs
    let packetCount : Nat :=
      (getTotalPacketsPrimary s + s.packetsDuplicate + s.packetsPadding) % U32
    let octetCount : Nat := (s.bytes + s.bytesDuplicate + s.bytesPadding) % U32
    let srData : SRData :=
      { NTPTimestamp := nowNTPUsed,
        NTPTimeNs := nowNTPTimeNsUsed,
        RTPTimestamp := nowRTPExt % U32,
        RTPTimestampExt := nowRTPExt,
        At := now,
        AtAdjusted := now,
        Packets := packetCount,
        Octets := octetCount }
    let outOfOrder : Bool :=
      match s.srNewest with
      | some prev => decide (nowRTPExt < prev.RTPTimestampExt)
      | none => false
    if outOfOrder = true then (s, none)
    else
      let s1 := { s with srNewest := some srData }
      let s2 := if s1.srFirst = none then { s1 with srFirst := some srData } else s1
      (s2, some { SSRC := ssrc % U32,
                  NTPTime := nowNTPUsed % U64,
                  RTPTime := nowRTPExt % U32,
                  PacketCount := packetCount,
                  OctetCount := octetCount })

-- ---------------------------------------------------------------------
-- Arithmetic helper lemmas.
-- ---------------------------------------------------------------------

lemma U64_num : U64 = 18446744073709551616 := by norm_num [U64]

lemma HALF64_num : HALF64 = 9223372036854775808 := by norm_num [HALF64]

lemma natOfInt64_of_lt (n : Nat) (h : n < U64) : natOfInt64 (n : Int) = n := by
  simp only [natOfInt64]
  rw [Int.emod_eq_of_lt (by positivity) (by exact_mod_cast h)]
  exact Int.toNat_natCast n

lemma sub64_of_le (a b : Nat) (ha : a < U64) (hb : b ≤ a) : sub64 a b = a - b := by
  rw [U64_num] at ha
  simp only [sub64, U64_num]
  omega

lemma toInt64_sub64_pos (a b : Nat) (ha : a < U64) (hb : b ≤ a) (hs : a - b < HALF64) :
    toInt64 (sub64 a b) = ((a - b : Nat) : Int) := by
  rw [U64_num] at ha
  rw [HALF64_num] at hs
  simp only [sub64, toInt64, U64_num, HALF64_num]
  rw [if_pos (by omega)]
  congr 1
  omega

lemma toInt64_sub64_neg (a b : Nat) (hb : b < U64) (hab : a < b) (hs : b - a ≤ HALF64) :
    toInt64 (sub64 a b) = -((b - a : Nat) : Int) := by
  rw [U64_num] at hb
  rw [HALF64_num] at hs
  simp only [sub64, toInt64, U64_num, HALF64_num]
  rw [if_neg (by omega)]
  have h1 : (a + 18446744073709551616 - b % 18446744073709551616) % 18446744073709551616 =
      18446744073709551616 - (b - a) := by omega
  rw [h1, Nat.mod_eq_of_lt (by omega)]
  omega

lemma sub64_self (a : Nat) : sub64 a a = 0 := by
  simp only [sub64, U64_num]
  omega

lemma toInt64_zero : toInt64 0 = 0 := by decide

lemma toInt64_sub64_nonpos (a b : Nat) (hb : b < U64) (hab : a ≤ b) (hs : b - a ≤ HALF64) :
    toInt64 (sub64 a b) ≤ 0 := by
  rcases eq_or_lt_of_le hab with h | h
  · rw [h, sub64_self, toInt64_zero]
  · rw [toInt64_sub64_neg _ _ hb h hs]
    omega

-- ---------------------------------------------------------------------
-- Example states used by witnesses and counterexamples.
-- ---------------------------------------------------------------------

/-- A steady-state receiver with sequence numbers extended up to 110
and no history bits set. -/
def exReceiverState : ReceiverState :=
  { initialized := true,
    seqSN := { width := 16, started := true, extStart := 100, extHighest := 110 },
    tsState := { width := 32, started := true, extStart := 1000, extHighest := 2000 } }

/-- A receiver whose end time has been set. -/
def exReceiverEnded : ReceiverState := { exReceiverState with endTimeSet := true }

/-- A steady-state sender with start 50 and highest 5000. -/
def exSenderState : SenderState :=
  { initialized := true,
    extStartSN := 50,
    extHighestSN := 5000,
    extStartTS := 1000,
    extHighestTS := 2000 }

/-- A sender whose end time has been set. -/
def exSenderEnded : SenderState := { exSenderState with endTimeSet := true }

-- ---------------------------------------------------------------------
-- C9: end of stream makes Update a no-op.
-- ---------------------------------------------------------------------

/-- C9: once endTime has been set, every receiver Update call returns a
flow state with IsNotHandled = true and leaves the whole state (all
counters, the history bitmap and both extension states) unchanged, and
every sender Update call returns leaving the whole state unchanged. -/
theorem C9_endTime_makes_update_noop (rs : ReceiverState) (ss : SenderState)
    (hr : rs.endTimeSet = true) (hs : ss.endTimeSet = true)
    (packetTime : Int) (sn ts : Nat) (marker : Bool) (hdr pay pad : Nat) (now : Int)
    (packetTime2 : Int) (esn ets : Nat) (marker2 : Bool) (hdr2 pay2 pad2 : Nat) (now2 : Int) :
    receiverUpdate rs packetTime sn ts marker hdr pay pad now =
      (rs, { IsNotHandled := true }) ∧
    senderUpdate ss packetTime2 esn ets marker2 hdr2 pay2 pad2 now2 = ss := by
  constructor
  · simp only [receiverUpdate, hr, if_pos]
  · simp only [senderUpdate, hs, if_pos]

/-- Witness for C9 at a concrete ended receiver and sender. -/
theorem C9_witness :
    exReceiverEnded.endTimeSet = true ∧ exSenderEnded.endTimeSet = true ∧
    (receiverUpdate exReceiverEnded 7 1 2 false 3 4 5 6 =
       (exReceiverEnded, { IsNotHandled := true }) ∧
     senderUpdate exSenderEnded 7 1 2 false 3 4 5 6 = exSenderEnded) :=
  ⟨rfl, rfl,
    C9_endTime_makes_update_noop exReceiverEnded exSenderEnded rfl rfl
      7 1 2 false 3 4 5 6 7 1 2 false 3 4 5 6⟩

-- ---------------------------------------------------------------------
-- C1: receiver classification of duplicates and out-of-order packets.
-- ---------------------------------------------------------------------

/-- C1: in the receiver Update steady state, for every packet whose
sequence gap gapSN = extSN - preExtendedHighest is at most zero:
packetsOutOfOrder is incremented iff gapSN is nonzero; if
isInRange(extSN, extHighest) holds then the history bit for extSN is
tested — when set the packet is a duplicate (packetsDuplicate,
bytesDuplicate and headerBytesDuplicate incremented and
flowState.IsDuplicate true), otherwise packetsLost is decremented by
one and the bit is set; in either case flowState.IsOutOfOrder is
true. -/
theorem C1_receiver_duplicate_or_out_of_order (s : ReceiverState) (resSN resTS : WrapResult)
    (timestamp : Nat) (packetTime : Int) (marker : Bool) (hdrSize payloadSize paddingSize : Nat)
    (gapSN : Int) (r : ReceiverState × RTPFlowState)
    (hgap : gapSN = toInt64 (sub64 resSN.extendedVal resSN.preExtendedHighest))
    (hr : r = receiverClassify s resSN resTS timestamp packetTime marker hdrSize payloadSize
      paddingSize)
    (hle : gapSN ≤ 0) :
    (r.1.packetsOutOfOrder = s.packetsOutOfOrder + (if gapSN ≠ 0 then 1 else 0)) ∧
    (isInRange resSN.extendedVal resSN.preExtendedHighest = true →
      (s.history.isSet resSN.extendedVal = true →
        r.1.packetsDuplicate = s.packetsDuplicate + 1 ∧
        r.1.bytesDuplicate = s.bytesDuplicate + (hdrSize + payloadSize + paddingSize) ∧
        r.1.headerBytesDuplicate = s.headerBytesDuplicate + hdrSize ∧
        r.2.IsDuplicate = true) ∧
      (s.history.isSet resSN.extendedVal = false →
        r.1.packetsLost = sub64 s.packetsLost 1 ∧
        r.1.history = s.history.set resSN.extendedVal ∧
        r.2.IsDuplicate = false)) ∧
    r.2.IsOutOfOrder = true := by
  subst hgap hr
  simp only [receiverClassify, receiverCountersTail_packetsOutOfOrder,
    receiverCountersTail_packetsDuplicate, receiverCountersTail_bytesDuplicate,
    receiverCountersTail_headerBytesDuplicate, receiverCountersTail_packetsLost,
    receiverCountersTail_history]
  split_ifs <;> first | (exfalso; omega) | simp_all

/-- Witness for C1: a late arrival five behind the highest, inside the
history window with the bit not yet set, against `exReceiverState`. -/
theorem C1_witness :
    ((-5 : Int) = toInt64 (sub64 105 110) ∧ (-5 : Int) ≤ 0 ∧
      isInRange 105 110 = true ∧ exReceiverState.history.isSet 105 = false) ∧
    ((receiverClassify exReceiverState { preExtendedHighest := 110, extendedVal := 105 }
        { preExtendedHighest := 2000, extendedVal := 1995 } 1995 77 false 10 100 0).1.packetsLost
          = sub64 exReceiverState.packetsLost 1 ∧
     (receiverClassify exReceiverState { preExtendedHighest := 110, extendedVal := 105 }
        { preExtendedHighest := 2000, extendedVal := 1995 } 1995 77 false 10 100 0).2.IsOutOfOrder
          = true) :=
  ⟨⟨by decide, by decide, by decide, by decide⟩,
    (((C1_receiver_duplicate_or_out_of_order exReceiverState
        { preExtendedHighest := 110, extendedVal := 105 }
        { preExtendedHighest := 2000, extendedVal := 1995 } 1995 77 false 10 100 0
        (-5) _ (by decide) rfl (by decide)).2.1 (by decide)).2 (by decide)).1,
    (C1_receiver_duplicate_or_out_of_order exReceiverState
        { preExtendedHighest := 110, extendedVal := 105 }
        { preExtendedHighest := 2000, extendedVal := 1995 } 1995 77 false 10 100 0
        (-5) _ (by decide) rfl (by decide)).2.2⟩

-- ---------------------------------------------------------------------
-- C2: receiver classification of in-order packets.
-- ---------------------------------------------------------------------

/-- C2: in the receiver Update steady state, for every packet with
gapSN = extSN - preExtendedHighest > 0: the history bits for
[preExtendedHighest+1, extSN-1] are cleared and the bit for extSN is
set, packetsLost is increased by gapSN - 1, and the returned flow
state reports HasLoss with [LossStartInclusive, LossEndExclusive) =
[preExtendedHighest+1, extSN) exactly when gapSN > 1 (HasLoss is false
when gapSN = 1). -/
theorem C2_receiver_in_order (s : ReceiverState) (resSN resTS : WrapResult)
    (timestamp : Nat) (packetTime : Int) (marker : Bool) (hdrSize payloadSize paddingSize : Nat)
    (r : ReceiverState × RTPFlowState)
    (hr : r = receiverClassify s resSN resTS timestamp packetTime marker hdrSize payloadSize
      paddingSize)
    (hwfE : resSN.extendedVal < U64)
    (hlt : resSN.preExtendedHighest < resSN.extendedVal)
    (hsmall : resSN.extendedVal - resSN.preExtendedHighest < HALF64)
    (hplwf : s.packetsLost + (resSN.extendedVal - resSN.preExtendedHighest) < U64) :
    r.1.history =
      (s.history.clearRange (resSN.preExtendedHighest + 1) (resSN.extendedVal - 1)).set
        resSN.extendedVal ∧
    r.1.packetsLost =
      s.packetsLost + (resSN.extendedVal - resSN.preExtendedHighest - 1) ∧
    (resSN.preExtendedHighest + 1 < resSN.extendedVal →
      r.2.HasLoss = true ∧
      r.2.LossStartInclusive = resSN.preExtendedHighest + 1 ∧
      r.2.LossEndExclusive = resSN.extendedVal) ∧
    (resSN.extendedVal = resSN.preExtendedHighest + 1 → r.2.HasLoss = false) := by
  subst hr
  have hgapv : toInt64 (sub64 resSN.extendedVal resSN.preExtendedHighest) =
      ((resSN.extendedVal - resSN.preExtendedHighest : Nat) : Int) :=
    toInt64_sub64_pos _ _ hwfE (le_of_lt hlt) hsmall
  have hsub1 : sub64 resSN.extendedVal 1 = resSN.extendedVal - 1 :=
    sub64_of_le _ _ hwfE (by omega)
  have hnat : natOfInt64 (((resSN.extendedVal - resSN.preExtendedHighest : Nat) : Int) - 1) =
      resSN.extendedVal - resSN.preExtendedHighest - 1 := by
    have hc : ((resSN.extendedVal - resSN.preExtendedHighest : Nat) : Int) - 1 =
        ((resSN.extendedVal - resSN.preExtendedHighest - 1 : Nat) : Int) := by omega
    rw [hc]
    exact natOfInt64_of_lt _ (by omega)
  have hpre1 : (resSN.preExtendedHighest + 1) % U64 = resSN.preExtendedHighest + 1 :=
    Nat.mod_eq_of_lt (by omega)
  have hmod : (s.packetsLost + (resSN.extendedVal - resSN.preExtendedHighest - 1)) % U64 =
      s.packetsLost + (resSN.extendedVal - resSN.preExtendedHighest - 1) :=
    Nat.mod_eq_of_lt (by omega)
  have hgt : ¬ ((((resSN.extendedVal - resSN.preExtendedHighest : Nat) : Int)) ≤ 0) := by
    omega
  simp only [receiverClassify]
  simp only [updateGapHistogramR]
  simp only [receiverCountersTail_packetsOutOfOrder,
    receiverCountersTail_packetsDuplicate, receiverCountersTail_bytesDuplicate,
    receiverCountersTail_headerBytesDuplicate, receiverCountersTail_packetsLost,
    receiverCountersTail_history]
  simp only [hgapv]
  simp only [hnat]
  simp only [if_neg hgt]
  split_ifs <;>
    refine ⟨by simp [hsub1], by simp [hmod], fun hl => ?_, fun he => ?_⟩ <;>
    first | (exfalso; omega) | simp [hpre1]

/-- Witness for C2: a gap of four (three packets lost) against
`exReceiverState`. -/
theorem C2_witness :
    ((114 : Nat) < U64 ∧ (110 : Nat) < 114 ∧ 114 - 110 < HALF64 ∧
      exReceiverState.packetsLost + (114 - 110) < U64) ∧
    ((receiverClassify exReceiverState { preExtendedHighest := 110, extendedVal := 114 }
        { preExtendedHighest := 2000, extendedVal := 2004 } 2004 77 true 10 100 0).1.packetsLost
          = exReceiverState.packetsLost + (114 - 110 - 1) ∧
     (receiverClassify exReceiverState { preExtendedHighest := 110, extendedVal := 114 }
        { preExtendedHighest := 2000, extendedVal := 2004 } 2004 77 true 10 100 0).2.HasLoss
          = true) :=
  ⟨⟨by decide, by decide, by decide, by decide⟩,
    (C2_receiver_in_order exReceiverState { preExtendedHighest := 110, extendedVal := 114 }
      { preExtendedHighest := 2000, extendedVal := 2004 } 2004 77 true 10 100 0
      _ rfl (by decide) (by decide) (by decide) (by decide)).2.1,
    ((C2_receiver_in_order exReceiverState { preExtendedHighest := 110, extendedVal := 114 }
      { preExtendedHighest := 2000, extendedVal := 2004 } 2004 77 true 10 100 0
      _ rfl (by decide) (by decide) (by decide) (by decide)).2.2.1 (by decide)).1⟩

-- ---------------------------------------------------------------------
-- C4 / C5: propagation delay adaptation on sender report ingestion.
-- ---------------------------------------------------------------------

/-- A receiver that has already seen a sender report, with a
propagation delay estimate of 20 ms and no long-term delta estimate. -/
def c4State : ReceiverState :=
  { exReceiverState with srFirst := some {}, srNewest := some {},
                         propagationDelay := 2 * 10 ^ 7 }

/-- A sender report whose propagation delay sample is 40 ms. -/
def c4SR : SRData := { At := 4 * 10 ^ 7 }

/-- Counterexample to C4 as stated: with propagationDelay = 20 ms and
longTermDeltaPropagationDelay = 0, a sender report with a 40 ms
propagation delay sample does not satisfy the path-change condition
(its second conjunct fails), yet propagationDelay is left at 20 ms
instead of being moved to the claimed EWMA value of 22 ms — the code
only applies the EWMA when deltaPropagationDelay is at most 10 ms. -/
theorem C4_counterexample :
    (updatePropagationDelayAndRecordSenderReport c4State c4SR 0).propagationDelay =
      2 * 10 ^ 7 ∧
    (updatePropagationDelayAndRecordSenderReport c4State c4SR 0).propagationDelay ≠
      claimedAsymmetricEwma (2 * 10 ^ 7) (4 * 10 ^ 7) :=
  ⟨rfl, by decide⟩

/-- C4 (amended): on an accepted sender report after the first, when
deltaPropagationDelay is at most 10 ms (so the path-change condition
cannot hold) the delta-tracking state (high count, high start time,
spike estimate) is reset and propagationDelay is updated by the
asymmetric EWMA with alpha = 0.1 on a rise and 0.9 on a fall; when
deltaPropagationDelay exceeds 10 ms but the remaining path-change
conditions fail, the delta-tracking state is reset and
propagationDelay is left unchanged. -/
theorem C4_receiver_propagation_delay_ewma (s : ReceiverState) (srData : SRData) (now : Int)
    (f0 : SRData) (hfirst : s.srFirst = some f0)
    (pd delta : Int) (t : ReceiverState)
    (hpd : pd = srData.At - srData.NTPTimeNs)
    (hdelta : delta = pd - s.propagationDelay)
    (ht : t = updatePropagationDelayAndRecordSenderReport s srData now) :
    (delta ≤ 10 ^ 7 →
      t.propagationDelayDeltaHighCount = 0 ∧
      t.propagationDelayDeltaHighStartTime = none ∧
      t.propagationDelaySpike = 0 ∧
      t.propagationDelay = claimedAsymmetricEwma s.propagationDelay pd) ∧
    (10 ^ 7 < delta →
      ¬(s.longTermDeltaPropagationDelay ≠ 0 ∧ s.longTermDeltaPropagationDelay * 2 < delta) →
      t.propagationDelayDeltaHighCount = 0 ∧
      t.propagationDelayDeltaHighStartTime = none ∧
      t.propagationDelaySpike = 0 ∧
      t.propagationDelay = s.propagationDelay) := by
  subst hpd hdelta ht
  simp only [updatePropagationDelayAndRecordSenderReport, hfirst]
  constructor
  · intro hA
    rw [propagationDelayDeltaStage_ewma s _ now (by omega)]
    refine ⟨?_, ?_, ?_, ?_⟩ <;>
      simp [longTermAdaptationStage_highCount, longTermAdaptationStage_highStartTime,
        longTermAdaptationStage_spike, longTermAdaptationStage_propagationDelay, resetDelta]
  · intro hA hB
    rw [propagationDelayDeltaStage_reset_only s _ now (by omega) (by omega)]
    refine ⟨?_, ?_, ?_, ?_⟩ <;>
      simp [longTermAdaptationStage_highCount, longTermAdaptationStage_highStartTime,
        longTermAdaptationStage_spike, longTermAdaptationStage_propagationDelay, resetDelta]

/-- A sender report whose propagation delay sample is 25 ms, a small
rise over the 20 ms estimate of `c4State`. -/
def c4SRsmall : SRData := { At := 25 * 10 ^ 6 }

/-- Witness for C4 at a 5 ms delta: the EWMA applies. -/
theorem C4_witness :
    (c4State.srFirst = some {} ∧
      (25 * 10 ^ 6 : Int) = c4SRsmall.At - c4SRsmall.NTPTimeNs ∧
      (5 * 10 ^ 6 : Int) = 25 * 10 ^ 6 - c4State.propagationDelay ∧
      (5 * 10 ^ 6 : Int) ≤ 10 ^ 7) ∧
    ((updatePropagationDelayAndRecordSenderReport c4State c4SRsmall 0).propagationDelayDeltaHighCount = 0 ∧
     (updatePropagationDelayAndRecordSenderReport c4State c4SRsmall 0).propagationDelayDeltaHighStartTime = none ∧
     (updatePropagationDelayAndRecordSenderReport c4State c4SRsmall 0).propagationDelaySpike = 0 ∧
     (updatePropagationDelayAndRecordSenderReport c4State c4SRsmall 0).propagationDelay =
       claimedAsymmetricEwma c4State.propagationDelay (25 * 10 ^ 6)) :=
  ⟨⟨rfl, by decide, by decide, by decide⟩,
    (C4_receiver_propagation_delay_ewma c4State c4SRsmall 0 {} rfl
      (25 * 10 ^ 6) (5 * 10 ^ 6) _ (by decide) (by decide) rfl).1 (by decide)⟩

/-- A receiver in the middle of a propagation delay spike: estimate
20 ms, long-term delta 15 ms, one high report seen at time 0, spike
estimate 100 ms. -/
def c5State : ReceiverState :=
  { exReceiverState with srFirst := some {}, srNewest := some {},
                         propagationDelay := 2 * 10 ^ 7,
                         longTermDeltaPropagationDelay := 15 * 10 ^ 6,
                         propagationDelayDeltaHighCount := 1,
                         propagationDelayDeltaHighStartTime := some 0,
                         propagationDelaySpike := 10 ^ 8 }

/-- A sender report whose propagation delay sample is 60 ms. -/
def c5SR : SRData := { At := 6 * 10 ^ 7 }

/-- Counterexample to C5 as stated: at the commit point (second high
report, 10 s elapsed) propagationDelay is indeed re-seeded to the
spike estimate (80 ms here), but longTermDeltaPropagationDelay does
not end the call zeroed — the long-term adaptation that follows in the
same call re-seeds it to deltaPropagationDelay (40 ms here) because
the delta is below the 50 ms long-term adaptation threshold. -/
theorem C5_counterexample :
    (updatePropagationDelayAndRecordSenderReport c5State c5SR (10 ^ 10)).propagationDelay =
      8 * 10 ^ 7 ∧
    (updatePropagationDelayAndRecordSenderReport c5State c5SR
        (10 ^ 10)).longTermDeltaPropagationDelay ≠ 0 :=
  ⟨rfl, by decide⟩

/-- C5 (amended): on an accepted sender report satisfying the
sharp-increase condition, the high count is incremented, the high
start time is started if unset and the spike estimate is updated by
the EWMA with factor 0.5; once the updated count reaches 2 and at
least 10 s have elapsed since the high start time was first set,
propagationDelay is re-seeded to the updated spike estimate and the
high-count / high-start-time / spike state is reset, while
longTermDeltaPropagationDelay is zeroed at the commit and then, still
in the same call, re-seeded to deltaPropagationDelay when that delta
is below the 50 ms long-term adaptation threshold (it stays 0
otherwise); before both thresholds are met, propagationDelay is not
changed by the spike branch. -/
theorem C5_receiver_propagation_delay_spike (s : ReceiverState) (srData : SRData) (now : Int)
    (f0 : SRData) (hfirst : s.srFirst = some f0)
    (pd delta : Int) (t : ReceiverState)
    (hpd : pd = srData.At - srData.NTPTimeNs)
    (hdelta : delta = pd - s.propagationDelay)
    (ht : t = updatePropagationDelayAndRecordSenderReport s srData now)
    (hA : 10 ^ 7 < delta)
    (hB1 : s.longTermDeltaPropagationDelay ≠ 0)
    (hB2 : s.longTermDeltaPropagationDelay * 2 < delta)
    (count : Nat) (startT spike : Int)
    (hcount : count = s.propagationDelayDeltaHighCount + 1)
    (hstart : startT = s.propagationDelayDeltaHighStartTime.getD now)
    (hspike : spike = (if s.propagationDelaySpike = 0 then pd
      else s.propagationDelaySpike + Int.tdiv (pd - s.propagationDelaySpike) 2)) :
    (2 ≤ count ∧ 10 ^ 10 ≤ now - startT →
      t.propagationDelay = spike ∧
      t.propagationDelayDeltaHighCount = 0 ∧
      t.propagationDelayDeltaHighStartTime = none ∧
      t.propagationDelaySpike = 0 ∧
      t.longTermDeltaPropagationDelay = (if delta < 5 * 10 ^ 7 then delta else 0)) ∧
    (¬(2 ≤ count ∧ 10 ^ 10 ≤ now - startT) →
      t.propagationDelay = s.propagationDelay ∧
      t.propagationDelayDeltaHighCount = count ∧
      t.propagationDelayDeltaHighStartTime = some startT ∧
      t.propagationDelaySpike = spike) := by
  subst hpd hdelta ht
  simp only [updatePropagationDelayAndRecordSenderReport, hfirst]
  rw [propagationDelayDeltaStage_spike s _ now hA hB1 hB2 count startT spike hcount hstart
    hspike]
  constructor
  · intro hC
    rw [if_pos hC]
    refine ⟨?_, ?_, ?_, ?_, ?_⟩
    · simp [longTermAdaptationStage_propagationDelay, initPropagationDelay, resetDelta]
    · simp [longTermAdaptationStage_highCount, initPropagationDelay, resetDelta]
    · simp [longTermAdaptationStage_highStartTime, initPropagationDelay, resetDelta]
    · simp [longTermAdaptationStage_spike, initPropagationDelay, resetDelta]
    · rw [longTermAdaptationStage_longTerm_of_zero _ _ _ (by simp [initPropagationDelay, resetDelta]) (by omega)]
  · intro hC
    rw [if_neg hC]
    refine ⟨?_, ?_, ?_, ?_⟩
    · simp [longTermAdaptationStage_propagationDelay]
    · simp [longTermAdaptationStage_highCount]
    · simp [longTermAdaptationStage_highStartTime]
    · simp [longTermAdaptationStage_spike]

-- ---------------------------------------------------------------------
-- C6: sender start-sequence-number adjustment.
-- ---------------------------------------------------------------------

/-- A two-packet sender run: the stream starts at sequence number 10,
then sequence number 5 (payload bearing) arrives. -/
def c6s1 : SenderState := senderUpdate {} 0 10 1000 false 10 100 0 0

/-- The state after the retroactive packet 5. -/
def c6s2 : SenderState := senderUpdate c6s1 5 5 900 false 10 100 0 5

/-- Counterexample to C6 as stated: after starting at sequence number
10, a payload packet with sequence number 5 lowers the start, but the
net change of packetsLost over the whole Update call is
oldStart - extSN - 1 = 4, not the claimed oldStart - extSN = 5 — the
start adjustment adds 5 and the subsequent late-arrival classification
(the ring slot for 5 is empty and in the window) decrements 1. -/
theorem C6_counterexample :
    c6s2.packetsLost ≠ c6s1.packetsLost + (c6s1.extStartSN - 5) := by
  decide

set_option maxHeartbeats 3200000 in
/-- C6 (amended): on a sender Update in steady state with
extSequenceNumber < extStartSN and payloadSize > 0: extStartSN becomes
extSequenceNumber; every generic snapshot anchored at the old start is
re-anchored at extSequenceNumber; every sender snapshot anchored at
the old start is re-anchored likewise, with extLastRRSN shifted to
extSequenceNumber - 1 when it equalled oldStart - 1; packetsLost grows
by oldStart - extSequenceNumber through the start adjustment and is
then decremented by one more when the packet is classified as a late
arrival (its ring slot is inside the window with an empty entry, as
isSnInfoLost reports), so the net change is oldStart - extSN - 1 in
that case and oldStart - extSN when the packet is instead counted as a
duplicate.  A padding-only packet below the start changes no state. -/
theorem C6_sender_start_adjustment (s : SenderState) (packetTime : Int)
    (extSequenceNumber extTimestamp : Nat) (marker : Bool)
    (hdrSize payloadSize paddingSize : Nat) (now : Int) (t : SenderState)
    (ht : t = senderUpdate s packetTime extSequenceNumber extTimestamp marker hdrSize
      payloadSize paddingSize now)
    (hinit : s.initialized = true) (hend : s.endTimeSet = false)
    (hpay : 0 < payloadSize)
    (hlt : extSequenceNumber < s.extStartSN)
    (hwf1 : s.extStartSN ≤ s.extHighestSN + 1)
    (hwf2 : s.extHighestSN < U64)
    (hwf3 : s.extHighestSN < extSequenceNumber + HALF64)
    (hplwf : s.packetsLost + s.extStartSN < U64) :
    t.extStartSN = extSequenceNumber ∧
    t.snapshots = s.snapshots.map
      (fun sn => if sn.extStartSN = s.extStartSN then { sn with extStartSN := extSequenceNumber }
                 else sn) ∧
    (∀ i : Nat,
      (t.senderSnapshots[i]?).map (fun sn => (sn.extStartSN, sn.extLastRRSN)) =
      ((s.senderSnapshots.map (fun sn =>
        if sn.extStartSN = s.extStartSN then
          { sn with extStartSN := extSequenceNumber,
                    extLastRRSN := if sn.extLastRRSN = s.extStartSN - 1 then
                        sub64 extSequenceNumber 1
                      else sn.extLastRRSN }
        else sn))[i]?).map (fun sn => (sn.extStartSN, sn.extLastRRSN))) ∧
    t.packetsLost = s.packetsLost + (s.extStartSN - extSequenceNumber) -
      (if isSnInfoLost s extSequenceNumber s.extHighestSN = true then 1 else 0) ∧
    (∀ (packetTime2 now2 : Int) (marker2 : Bool) (hdrSize2 paddingSize2 : Nat),
      senderUpdate s packetTime2 extSequenceNumber extTimestamp marker2 hdrSize2 0
        paddingSize2 now2 = s) := by
  subst ht
  have hstartlt : s.extStartSN < U64 := by omega
  have hesnle : extSequenceNumber ≤ s.extHighestSN := by omega
  have hgap : toInt64 (sub64 extSequenceNumber s.extHighestSN) ≤ 0 :=
    toInt64_sub64_nonpos _ _ hwf2 hesnle (by omega)
  have hsubS : sub64 s.extStartSN extSequenceNumber = s.extStartSN - extSequenceNumber :=
    sub64_of_le _ _ hstartlt (le_of_lt hlt)
  have hsub1 : sub64 s.extStartSN 1 = s.extStartSN - 1 :=
    sub64_of_le _ _ hstartlt (by omega)
  have hmodL : (s.packetsLost + (s.extStartSN - extSequenceNumber)) % U64 =
      s.packetsLost + (s.extStartSN - extSequenceNumber) :=
    Nat.mod_eq_of_lt (by omega)
  have hsubL : sub64 (s.packetsLost + (s.extStartSN - extSequenceNumber)) 1 =
      s.packetsLost + (s.extStartSN - extSequenceNumber) - 1 :=
    sub64_of_le _ _ (by omega) (by omega)
  have cEnd : (s.endTimeSet = true) = False := by simp [hend]
  have cInit : (s.initialized = false) = False := by simp [hinit]
  have cGap : (toInt64 (sub64 extSequenceNumber s.extHighestSN) ≤ 0) = True := eq_true hgap
  have cPay : (payloadSize = 0) = False := eq_false (by omega)
  have cAdj : (extSequenceNumber < s.extStartSN) = True := eq_true hlt
  refine ⟨?_, ?_, fun i => ?_, ?_, fun packetTime2 now2 marker2 hdrSize2 paddingSize2 => ?_⟩
  · simp only [senderUpdate, senderAdjustStart, cEnd, cInit, cGap, cPay, cAdj,
      false_and, and_false, and_true, true_and,
      ite_true, ite_false, senderUpdateTail_extStartSN]
    split_ifs <;>
      first
        | rfl
        | (simp only [setSnInfo_extStartSN]; done)
        | (simp only [setSnInfo_extStartSN]; rfl)
  · simp only [senderUpdate, senderAdjustStart, cEnd, cInit, cGap, cPay, cAdj,
      false_and, and_false, and_true, true_and,
      ite_true, ite_false, senderUpdateTail_snapshots]
    split_ifs <;>
      first
        | rfl
        | (simp only [setSnInfo_snapshots]; done)
        | (simp only [setSnInfo_snapshots]; rfl)
  · simp only [senderUpdate, senderAdjustStart, cEnd, cInit, cGap, cPay, cAdj,
      false_and, and_false, and_true, true_and,
      ite_true, ite_false, senderUpdateTail_senderSnapshots_anchor, hsub1]
    split_ifs <;>
      (try simp only [setSnInfo_senderSnapshots]) <;>
      simp only [List.getElem?_map, Option.map_map] <;>
      (cases s.senderSnapshots[i]? <;> simp <;> (try split_ifs) <;> simp_all)
  · simp only [senderUpdate, senderAdjustStart, cEnd, cInit, cGap, cPay, cAdj,
      false_and, and_false, and_true, true_and,
      ite_true, ite_false, senderUpdateTail_packetsLost]
    split_ifs <;>
      first
        | rfl
        | (simp only [setSnInfo_packetsLost, hsubS, hmodL, hsubL]; done)
        | (simp only [setSnInfo_packetsLost, hsubS, hmodL, hsubL]; rfl)
        | (simp only [hsubS, hmodL]; done)
        | (simp only [hsubS, hmodL]; rfl)
        | simp_all
  · simp only [senderUpdate, cEnd, cInit, cGap, cAdj, eq_self_iff_true,
      false_and, and_false, and_true, true_and, ite_true, ite_false]

-- ---------------------------------------------------------------------
-- C10: late arrivals outside the metadata ring window.
-- ---------------------------------------------------------------------

/-- C10: on a sender Update of an out-of-order packet at or above the
start whose sequence number is cSnInfoSize = 4096 or more behind the
highest, isSnInfoLost reports false (the slot is outside the ring
window), so the packet is always classified as a duplicate:
packetsDuplicate, bytesDuplicate and headerBytesDuplicate are
incremented and packetsLost is not decremented (it is unchanged). -/
theorem C10_sender_stale_late_arrival_is_duplicate (s : SenderState) (packetTime : Int)
    (extSequenceNumber extTimestamp : Nat) (marker : Bool)
    (hdrSize payloadSize paddingSize : Nat) (now : Int) (t : SenderState)
    (ht : t = senderUpdate s packetTime extSequenceNumber extTimestamp marker hdrSize
      payloadSize paddingSize now)
    (hinit : s.initialized = true) (hend : s.endTimeSet = false)
    (hstart : s.extStartSN ≤ extSequenceNumber)
    (hbehind : extSequenceNumber + cSnInfoSize ≤ s.extHighestSN)
    (hwf2 : s.extHighestSN < U64)
    (hwf3 : s.extHighestSN < extSequenceNumber + HALF64) :
    isSnInfoLost s extSequenceNumber s.extHighestSN = false ∧
    t.packetsDuplicate = s.packetsDuplicate + 1 ∧
    t.bytesDuplicate = s.bytesDuplicate + (hdrSize + payloadSize + paddingSize) ∧
    t.headerBytesDuplicate = s.headerBytesDuplicate + hdrSize ∧
    t.packetsLost = s.packetsLost := by
  subst ht
  have hbehind4096 : extSequenceNumber + 4096 ≤ s.extHighestSN := by
    simp only [cSnInfoSize] at hbehind
    omega
  have hoff : toInt64 (sub64 s.extHighestSN extSequenceNumber) =
      ((s.extHighestSN - extSequenceNumber : Nat) : Int) :=
    toInt64_sub64_pos _ _ hwf2 (by omega) (by omega)
  have hlost : isSnInfoLost s extSequenceNumber s.extHighestSN = false := by
    have h4096 : (cSnInfoSize : Int) ≤ ((s.extHighestSN - extSequenceNumber : Nat) : Int) := by
      simp only [cSnInfoSize]
      exact_mod_cast (by omega : (4096 : Nat) ≤ s.extHighestSN - extSequenceNumber)
    simp only [isSnInfoLost, getSnInfoOutOfOrderSlot, hoff]
    rw [if_pos (Or.inl h4096)]
  have hgap : toInt64 (sub64 extSequenceNumber s.extHighestSN) ≤ 0 :=
    toInt64_sub64_nonpos _ _ hwf2 (by omega) (by omega)
  have cEnd : (s.endTimeSet = true) = False := by simp [hend]
  have cInit : (s.initialized = false) = False := by simp [hinit]
  have cGap : (toInt64 (sub64 extSequenceNumber s.extHighestSN) ≤ 0) = True := eq_true hgap
  have cAdj : (extSequenceNumber < s.extStartSN) = False := eq_false (by omega)
  have cDup : ((!isSnInfoLost s extSequenceNumber s.extHighestSN) = true) = True := by
    simp [hlost]
  have cDupF : ((!isSnInfoLost s extSequenceNumber s.extHighestSN) = false) = False := by
    simp [hlost]
  refine ⟨hlost, ?_, ?_, ?_, ?_⟩ <;>
    simp only [senderUpdate, cEnd, cInit, cGap, cAdj, cDup, cDupF,
      false_and, and_false, and_true, true_and,
      ite_true, ite_false, senderUpdateTail_packetsDuplicate, senderUpdateTail_bytesDuplicate,
      senderUpdateTail_headerBytesDuplicate, senderUpdateTail_packetsLost] <;>
    split_ifs <;> rfl

-- ---------------------------------------------------------------------
-- C3: FractionLost is not clamped.
-- ---------------------------------------------------------------------

/-- The snapshot opening a reporting interval at extended sequence
number 100 with no losses counted yet. -/
def c3Then : Snapshot := { startTime := 0, extStartSN := 100, packetsLost := 0, maxRtt := 0 }

/-- The snapshot closing the interval: 10 packets expected
(extStartSN 110) and all 10 counted lost. -/
def c3Now : Snapshot := { startTime := 0, extStartSN := 110, packetsLost := 10, maxRtt := 0 }

/-- The FractionLost formula in the words of claim C3:
clamp(floor(256 * lost / expected), 0, 255), then max with the proxy
hint. -/
def claimedFracLost (packetsLost packetsExpected proxyFracLost : Nat) : Nat :=
  max (min (256 * packetsLost / packetsExpected) 255) proxyFracLost

/-- C3: the claim states the intent (a clamp to 255) but the code has
no clamp: with 10 packets expected and all 10 lost (proxy hint 0) the
claimed clamped value is 255, while GetRtcpReceptionReport computes
uint8(float32(10) / float32(10) * 256.0) = uint8(256.0), which the gc
amd64/arm64 backends truncate to 0 — the report carries FractionLost 0
instead of 255. -/
theorem C3_fraction_lost_overflows_instead_of_clamping :
    (getRtcpReceptionReport {} 1 0 c3Then c3Now 0).map ReceptionReport.FractionLost =
      some (fracLostFromRatio 10 10) ∧
    fracLostFromRatio 10 10 = 0 ∧
    claimedFracLost 10 10 0 = 255 ∧
    fracLostFromRatio 10 10 ≠ claimedFracLost 10 10 0 := by
  refine ⟨?_, by decide, by decide, by decide⟩
  decide

-- ---------------------------------------------------------------------
-- C7: the recorded sender report timestamp extension invariant.
-- ---------------------------------------------------------------------

/-- C7: every sender report recorded as srNewest satisfies
RTPTimestampExt mod 2^32 = RTPTimestamp: on the receiver the extension
produced by getExtendedSenderReport adds a multiple of 2^32 to the
(in-range) 32-bit timestamp, and updatePropagationDelayAndRecordSenderReport
records it with both timestamp fields untouched; on the sender a
successful GetRtcpSenderReport records RTPTimestamp := nowRTPExt mod
2^32 alongside RTPTimestampExt := nowRTPExt. -/
theorem C7_sr_rtp_timestamp_extension_invariant
    (s : ReceiverState) (srData : SRData) (now : Int)
    (ss : SenderState) (ssrc : Nat) (pub : SRData) (tsOffset : Nat) (pt : Bool)
    (now2 : Int) (nowNTP : Nat) (nowNTPNs : Int)
    (hts : srData.RTPTimestamp < U32) :
    ((getExtendedSenderReport s srData).RTPTimestampExt % U32 =
      (getExtendedSenderReport s srData).RTPTimestamp) ∧
    (∀ r, (updatePropagationDelayAndRecordSenderReport s (getExtendedSenderReport s srData)
        now).srNewest = some r → r.RTPTimestampExt % U32 = r.RTPTimestamp) ∧
    (∀ t pkt, getRtcpSenderReport ss ssrc pub tsOffset pt now2 nowNTP nowNTPNs =
        (t, some pkt) → ∀ r, t.srNewest = some r →
        r.RTPTimestampExt % U32 = r.RTPTimestamp) := by
  have h3264 : U32 ∣ U64 := ⟨2 ^ 32, by norm_num [U32, U64]⟩
  obtain ⟨k, hk⟩ := srTsCycles_dvd s srData
  have key : (srData.RTPTimestamp + srTsCycles s srData) % U64 % U32 =
      srData.RTPTimestamp := by
    rw [Nat.mod_mod_of_dvd _ h3264, hk, Nat.add_mul_mod_self_left, Nat.mod_eq_of_lt hts]
  refine ⟨key, fun r hr => ?_, fun t pkt hpk r hr => ?_⟩
  · simp only [updatePropagationDelayAndRecordSenderReport] at hr
    obtain rfl := (Option.some.injEq _ _).mp hr
    exact key
  · simp only [getRtcpSenderReport] at hpk
    repeat' split at hpk
    all_goals simp only [Prod.mk.injEq] at hpk
    all_goals
      first
        | exact Option.noConfusion hpk.2
        | (obtain ⟨rfl, -⟩ := hpk
           obtain rfl := (Option.some.injEq _ _).mp hr
           rfl)

/-- Witness for C7 at a 32-bit timestamp of 1234. -/
theorem C7_witness :
    1234 < U32 ∧
    ((getExtendedSenderReport exReceiverState { RTPTimestamp := 1234 }).RTPTimestampExt %
        U32 =
      (getExtendedSenderReport exReceiverState { RTPTimestamp := 1234 }).RTPTimestamp) :=
  ⟨by decide,
   (C7_sr_rtp_timestamp_extension_invariant exReceiverState { RTPTimestamp := 1234 } 0
      exSenderState 7 {} 0 true 0 0 0 (by decide)).1⟩

/-- Witness for C5 at the commit point: the second high report of
`c5State` arrives 10 s after the first, so the spike estimate is
committed and the long-term delta re-seeded. -/
theorem C5_witness :
    ((10 ^ 7 : Int) < 4 * 10 ^ 7 ∧
     c5State.longTermDeltaPropagationDelay ≠ 0 ∧
     c5State.longTermDeltaPropagationDelay * 2 < 4 * 10 ^ 7 ∧
     2 ≤ 2 ∧ (10 ^ 10 : Int) ≤ 10 ^ 10 - 0) ∧
    ((updatePropagationDelayAndRecordSenderReport c5State c5SR (10 ^ 10)).propagationDelay =
       8 * 10 ^ 7 ∧
     (updatePropagationDelayAndRecordSenderReport c5State c5SR
        (10 ^ 10)).propagationDelayDeltaHighCount = 0 ∧
     (updatePropagationDelayAndRecordSenderReport c5State c5SR
        (10 ^ 10)).propagationDelayDeltaHighStartTime = none ∧
     (updatePropagationDelayAndRecordSenderReport c5State c5SR
        (10 ^ 10)).propagationDelaySpike = 0 ∧
     (updatePropagationDelayAndRecordSenderReport c5State c5SR
        (10 ^ 10)).longTermDeltaPropagationDelay =
       (if (4 * 10 ^ 7 : Int) < 5 * 10 ^ 7 then (4 * 10 ^ 7 : Int) else 0)) :=
  ⟨⟨by decide, by decide, by decide, by decide, by decide⟩,
   (C5_receiver_propagation_delay_spike c5State c5SR (10 ^ 10) {} rfl
      (6 * 10 ^ 7) (4 * 10 ^ 7) _ (by decide) (by decide) rfl
      (by decide) (by decide) (by decide) 2 0 (8 * 10 ^ 7)
      (by decide) (by decide) (by decide)).1 (by decide)⟩

/-- Witness for C6 on the two-packet run `c6s1` / `c6s2`: the start
drops from 10 to 5 and packetsLost nets +4 (the late-arrival slot is
empty and in the window, so one loss is taken back). -/
theorem C6_witness :
    (c6s1.initialized = true ∧ c6s1.endTimeSet = false ∧ 0 < 100 ∧
     5 < c6s1.extStartSN ∧ c6s1.extStartSN ≤ c6s1.extHighestSN + 1 ∧
     c6s1.extHighestSN < U64 ∧ c6s1.extHighestSN < 5 + HALF64 ∧
     c6s1.packetsLost + c6s1.extStartSN < U64) ∧
    c6s2.extStartSN = 5 ∧
    c6s2.packetsLost = c6s1.packetsLost + (c6s1.extStartSN - 5) -
      (if isSnInfoLost c6s1 5 c6s1.extHighestSN = true then 1 else 0) := by
  have h := C6_sender_start_adjustment c6s1 5 5 900 false 10 100 0 5 c6s2 rfl
    (by decide) (by decide) (by decide) (by decide) (by decide) (by decide) (by decide)
    (by decide)
  exact ⟨⟨by decide, by decide, by decide, by decide, by decide, by decide, by decide,
    by decide⟩, h.1, h.2.2.2.1⟩

/-- Witness for C10: sequence number 100 arrives while the highest is
5000 (4900 behind, outside the 4096-slot ring), so it is counted as a
duplicate and packetsLost is untouched. -/
theorem C10_witness :
    (exSenderState.initialized = true ∧ exSenderState.endTimeSet = false ∧
     exSenderState.extStartSN ≤ 100 ∧
     100 + cSnInfoSize ≤ exSenderState.extHighestSN ∧
     exSenderState.extHighestSN < U64 ∧ exSenderState.extHighestSN < 100 + HALF64) ∧
    (isSnInfoLost exSenderState 100 exSenderState.extHighestSN = false ∧
     (senderUpdate exSenderState 0 100 1500 false 12 100 0 0).packetsDuplicate =
       exSenderState.packetsDuplicate + 1 ∧
     (senderUpdate exSenderState 0 100 1500 false 12 100 0 0).bytesDuplicate =
       exSenderState.bytesDuplicate + (12 + 100 + 0) ∧
     (senderUpdate exSenderState 0 100 1500 false 12 100 0 0).headerBytesDuplicate =
       exSenderState.headerBytesDuplicate + 12 ∧
     (senderUpdate exSenderState 0 100 1500 false 12 100 0 0).packetsLost =
       exSenderState.packetsLost) :=
  ⟨⟨by decide, by decide, by decide, by decide, by decide, by decide⟩,
   C10_sender_stale_late_arrival_is_duplicate exSenderState 0 100 1500 false 12 100 0 0 _
     rfl (by decide) (by decide) (by decide) (by decide) (by decide) (by decide)⟩

-- ---------------------------------------------------------------------
-- C8: receiver-report interval skip / aggregation on the sender.
-- ---------------------------------------------------------------------

/-- The intervalStats / extLastRRSN outcome of the per-snapshot RR
step: unchanged when the interval is backwards or larger than 2^15,
otherwise aggregated over the interval and advanced. -/
lemma senderSnapshotRRStep_proj (ring : SenderState) (ext rtt : Nat) (irc : Bool)
    (jit : Rat) (sn : SenderSnapshot) :
    ((senderSnapshotRRStep ring ext rtt irc jit sn).intervalStats,
     (senderSnapshotRRStep ring ext rtt irc jit sn).extLastRRSN) =
    (if toInt64 (sub64 ext sn.extLastRRSN) < 0 ∨ 2 ^ 15 < sub64 ext sn.extLastRRSN then
       (sn.intervalStats, sn.extLastRRSN)
     else
       (sn.intervalStats.aggregate
          (getIntervalStats ring (sn.extLastRRSN + 1) ((ext + 1) % U64) ring.extHighestSN),
        ext)) := by
  simp only [senderSnapshotRRStep]
  by_cases h1 : irc = true ∧ sn.maxRtt < rtt <;>
    simp only [h1, true_and, and_true, and_self, ite_true, ite_false] <;>
    by_cases h2 : sn.maxJitter < jit <;>
      simp only [h2, ite_true, ite_false] <;>
      by_cases h3 : toInt64 (sub64 ext sn.extLastRRSN) < 0 ∨
          2 ^ 15 < sub64 ext sn.extLastRRSN <;>
        simp only [h3, ite_true, ite_false] <;>
        first | rfl | simp_all

set_option maxHeartbeats 1600000 in
/-- C8: in sender RR ingestion, past the guard checks, each sender
snapshot is reconciled against the extended received highest sequence
number: when the interval since extLastRRSN is backwards (negative as
a signed 64-bit value) or exceeds 2^15 packets, the snapshot's
intervalStats and extLastRRSN are left unchanged for this report;
otherwise intervalStats is aggregated with getIntervalStats over
[extLastRRSN + 1, extReceivedRRSN + 1) and extLastRRSN advances to
extReceivedRRSN. -/
theorem C8_rr_interval_skip_or_aggregate (s : SenderState) (rr : RRPacket)
    (rttResult : Option Nat) (now : Int) (t : SenderState) (extReceivedRRSN : Nat)
    (ht : t = (updateFromReceiverReport s rr rttResult now).1)
    (hinit : s.initialized = true) (hend : s.endTimeSet = false)
    (hext : extReceivedRRSN =
      (extHighestSNFromRRNext s rr + s.extStartSN / 2 ^ 16 * 2 ^ 16) % U64)
    (hnotlow : ¬(extHighestSNFromRRNext s rr + s.extStartSN / 2 ^ 16 * 2 ^ 16) % U64 <
      s.extStartSN)
    (hnotback : ¬(s.lastRRTimeSet = true ∧
      extHighestSNFromRRNext s rr < s.extHighestSNFromRR)) :
    ∀ (i : Nat) (sn : SenderSnapshot), s.senderSnapshots[i]? = some sn →
      (t.senderSnapshots[i]?).map (fun x => (x.intervalStats, x.extLastRRSN)) =
        some (if toInt64 (sub64 extReceivedRRSN sn.extLastRRSN) < 0 ∨
                 2 ^ 15 < sub64 extReceivedRRSN sn.extLastRRSN then
                (sn.intervalStats, sn.extLastRRSN)
              else
                (sn.intervalStats.aggregate
                   (getIntervalStats s (sn.extLastRRSN + 1) ((extReceivedRRSN + 1) % U64)
                      s.extHighestSN),
                 extReceivedRRSN)) := by
  subst ht hext
  have cGuard : (s.initialized = false ∨ s.endTimeSet = true) = False := by
    simp [hinit, hend]
  have cLow : ((extHighestSNFromRRNext s rr + s.extStartSN / 2 ^ 16 * 2 ^ 16) % U64 <
      s.extStartSN) = False := eq_false hnotlow
  have cBack : (s.lastRRTimeSet = true ∧
      extHighestSNFromRRNext s rr < s.extHighestSNFromRR) = False := eq_false hnotback
  intro i sn hsn
  rcases hsr : s.srNewest with _ | prev <;> rcases hrt : rttResult with _ | v <;>
    simp only [updateFromReceiverReport, cGuard, cLow, cBack, ite_false, hsr, hrt] <;>
    split_ifs <;>
      first
        | (simp only [List.getElem?_map, hsn, Option.map_some]
           first
             | (refine congrArg some ((senderSnapshotRRStep_proj _ _ _ _ _ _).trans
                  (if_pos ?_))
                assumption)
             | (refine congrArg some ((senderSnapshotRRStep_proj _ _ _ _ _ _).trans
                  (if_neg ?_))
                assumption))
        | simp_all

/-- The sender state of a stream that started at extended sequence
number 0, carrying one sender snapshot anchored there — so its
extLastRRSN is 0 - 1 = 2^64 - 1 and the first reconciled interval
starts at the wrapped value 2^64. -/
def c8State : SenderState :=
  { exSenderState with extStartSN := 0, senderSnapshots := [initSenderSnapshot 0 0] }

/-- A receiver report acknowledging up to sequence number 100. -/
def c8RR : RRPacket := { LastSequenceNumber := 100 }

/-- Witness for C8 at the wrapped boundary: extLastRRSN = 2^64 - 1, so
the interval [2^64, 101) wraps to the 101 slots 0..100, is within the
2^15 limit, and the snapshot advances to extLastRRSN = 100. -/
theorem C8_witness :
    (c8State.initialized = true ∧ c8State.endTimeSet = false ∧
     ¬(extHighestSNFromRRNext c8State c8RR + c8State.extStartSN / 2 ^ 16 * 2 ^ 16) % U64 <
        c8State.extStartSN ∧
     ¬(c8State.lastRRTimeSet = true ∧
        extHighestSNFromRRNext c8State c8RR < c8State.extHighestSNFromRR) ∧
     c8State.senderSnapshots[0]? = some (initSenderSnapshot 0 0)) ∧
    (((updateFromReceiverReport c8State c8RR none 0).1.senderSnapshots[0]?).map
        (fun x => (x.intervalStats, x.extLastRRSN)) =
      some (if toInt64 (sub64 ((extHighestSNFromRRNext c8State c8RR +
                 c8State.extStartSN / 2 ^ 16 * 2 ^ 16) % U64)
                 (initSenderSnapshot 0 0).extLastRRSN) < 0 ∨
               2 ^ 15 < sub64 ((extHighestSNFromRRNext c8State c8RR +
                 c8State.extStartSN / 2 ^ 16 * 2 ^ 16) % U64)
                 (initSenderSnapshot 0 0).extLastRRSN then
              ((initSenderSnapshot 0 0).intervalStats,
               (initSenderSnapshot 0 0).extLastRRSN)
            else
              ((initSenderSnapshot 0 0).intervalStats.aggregate
                 (getIntervalStats c8State ((initSenderSnapshot 0 0).extLastRRSN + 1)
                    (((extHighestSNFromRRNext c8State c8RR +
                        c8State.extStartSN / 2 ^ 16 * 2 ^ 16) % U64 + 1) % U64)
                    c8State.extHighestSN),
               (extHighestSNFromRRNext c8State c8RR +
                 c8State.extStartSN / 2 ^ 16 * 2 ^ 16) % U64))) :=
  ⟨⟨by decide, by decide, by decide, by decide, rfl⟩,
   C8_rr_interval_skip_or_aggregate c8State c8RR none 0 _ _ rfl (by decide) (by decide)
     rfl (by decide) (by decide) 0 (initSenderSnapshot 0 0) rfl⟩

end RTPStats
